import Mathlib

/-!
Shallow embedding of the benchmark orchestration engine of the
`llm-structured-response-benchmark` repository.

Translated source files:
* `src/lib/schemas.ts` — response data model, Zod schemas (as decidable
  validity predicates) and `mergeSequentialParts`;
* `src/lib/storage.ts` — `AttemptResult` / `RunResult` / summary types and
  `calculateScenarioSummary`;
* `src/lib/prompts.ts` — prompt constants and `getRetryPrompt`;
* `src/lib/conversation.ts` — the fixed conversation and `formatConversation`;
* `src/lib/test-runner.ts` — `runNonStrictAttempt`, `runStrictAttempt` and the
  four scenario executors `runScenario1` … `runScenario4`.

Modelling choices:
* JavaScript numbers carrying rates/averages become `ℚ`; token counts,
  durations and indices become `ℕ`.
* The external Generator capability (the AI SDK's `generateText` /
  `generateObject` calls), together with JSON parsing and Zod validation of
  the generated text, is abstracted as an oracle: for every call the oracle
  supplies the raw text, token usage, wall-clock metadata and the
  classification of the parse/validation outcome.  A thrown transport error is
  the `threw` constructor; the executors are then proved/refuted against all
  (or concrete) oracles.
* `JSON.stringify` of validated stage outputs and the JSON-Schema text that
  the zod library renders into prompts are opaque to every claim; they are
  modelled by simple stand-in serializers/constants, documented below.
-/

namespace Benchmark

/-! ## Data model (`src/lib/schemas.ts`, `src/lib/storage.ts`) -/

/-- Zod enum `ModelTypeSchema = z.enum(['reasoning', 'semantic'])`. -/
inductive ModelType where
  | reasoning
  | semantic
deriving DecidableEq, Repr

/-- Actor object of `ActorSchema`. -/
structure Actor where
  title : String
  reason : String
  skills : List String
  prompt : String
  model : ModelType
deriving DecidableEq, Repr

/-- Action object of `ActionSchema`: `type` is the literal
`'create_actor'` in the schema; kept as a `String` field as in the source. -/
structure ActionObj where
  type : String
  actor : Actor
deriving DecidableEq, Repr

/-- Full `Response` object of `ResponseSchema`; `action` is nullable. -/
structure Response where
  recommendation : String
  action : Option ActionObj
deriving DecidableEq, Repr

/-- Data of `SequentialPart1Schema`: `action` is `'create_actor' | null`. -/
structure SequentialPart1 where
  recommendation : String
  action : Option String
deriving DecidableEq, Repr

/-- Data of `SequentialPart2Schema`. -/
structure SequentialPart2 where
  title : String
  reason : String
  skills : List String
deriving DecidableEq, Repr

/-- Data of `SequentialPart3Schema`. -/
structure SequentialPart3 where
  prompt : String
  model : ModelType
deriving DecidableEq, Repr

/-- Constraints of `ActorSchema`: `title.min(2)`, `reason.min(20)`,
`prompt.min(30)` (string lengths). -/
def actorSchemaValid (a : Actor) : Bool :=
  decide (2 ≤ a.title.length) && decide (20 ≤ a.reason.length) &&
    decide (30 ≤ a.prompt.length)

/-- Constraints of `ResponseSchema`: `recommendation.min(20)`, nullable action
whose `type` is the literal `'create_actor'` and whose actor satisfies
`ActorSchema`. -/
def responseSchemaValid (r : Response) : Bool :=
  decide (20 ≤ r.recommendation.length) &&
    (match r.action with
     | none => true
     | some act => (act.type == "create_actor") && actorSchemaValid act.actor)

/-- Function `mergeSequentialParts` from `src/lib/schemas.ts`: field-by-field assembly
of the final `Response` from the three stage outputs. -/
def mergeSequentialParts (part1 : SequentialPart1) (part2 : SequentialPart2)
    (part3 : SequentialPart3) : Response :=
  { recommendation := part1.recommendation
    action :=
      if part1.action = some "create_actor" then
        some { type := "create_actor"
               actor := { title := part2.title
                          reason := part2.reason
                          skills := part2.skills
                          prompt := part3.prompt
                          model := part3.model } }
      else none }

/-- Normalized validation error (`ValidationError` in `src/lib/storage.ts`,
produced by `parseZodErrors`). -/
structure ValidationError where
  path : List String
  message : String
  code : String
deriving DecidableEq, Repr

/-- Parsed payload stored in an attempt record; the TypeScript field is a
dynamic `Record<string, unknown>`, which at runtime is one of the four
validated shapes. -/
inductive Parsed where
  | resp (r : Response)
  | part1 (p : SequentialPart1)
  | part2 (p : SequentialPart2)
  | part3 (p : SequentialPart3)
deriving DecidableEq, Repr

/-- Record `AttemptResult` from `src/lib/storage.ts`. -/
structure AttemptResult where
  attemptNumber : Nat
  timestamp : String
  success : Bool
  durationMs : Nat
  inputTokens : Option Nat
  outputTokens : Option Nat
  prompt : String
  rawResponse : String
  parsedResponse : Option Parsed
  validationErrors : List ValidationError
  errorMessage : Option String
deriving DecidableEq, Repr

/-- Record `RunResult` from `src/lib/storage.ts`. -/
structure RunResult where
  runNumber : Nat
  success : Bool
  attempts : List AttemptResult
  totalDurationMs : Nat
  finalResponse : Option Response
deriving DecidableEq, Repr

/-- Summary object of `ScenarioResult` (`src/lib/storage.ts`); the
JavaScript number fields holding rates and averages are rationals here. -/
structure Summary where
  successRate : ℚ
  firstAttemptSuccessRate : ℚ
  afterRetry1SuccessRate : ℚ
  afterRetry2SuccessRate : ℚ
  afterRetry3SuccessRate : ℚ
  averageDurationMs : ℚ
  averageAttempts : ℚ
  totalTokensUsed : Nat
deriving DecidableEq, Repr

/-- Record `TestConfig` from `src/lib/test-runner.ts`. -/
structure TestConfig where
  temperature : ℚ
  maxTokens : Nat
  maxRetries : Nat
  runsPerScenario : Nat
deriving DecidableEq, Repr

/-- Constant `DEFAULT_CONFIG` from `src/lib/test-runner.ts`. -/
def DEFAULT_CONFIG : TestConfig :=
  { temperature := 1/10, maxTokens := 1500, maxRetries := 3, runsPerScenario := 10 }

/-! ## Metrics aggregator (`calculateScenarioSummary`, `src/lib/storage.ts`) -/

/-- JavaScript read `run.attempts[i]?.success`, with optional chaining: an
absent attempt reads as a falsy value. -/
def attemptSuccessAt (r : RunResult) (i : Nat) : Bool :=
  ((r.attempts.get? i).map (·.success)).getD false

/-- Body of the `for (const run of runs)` loop accumulating the cumulative
`afterRetry1/2/3` counters. -/
def summaryStep (acc : Nat × Nat × Nat) (r : RunResult) : Nat × Nat × Nat :=
  if attemptSuccessAt r 0 then acc
  else if attemptSuccessAt r 1 then (acc.1 + 1, acc.2.1 + 1, acc.2.2 + 1)
  else if attemptSuccessAt r 2 then (acc.1, acc.2.1 + 1, acc.2.2 + 1)
  else if attemptSuccessAt r 3 then (acc.1, acc.2.1, acc.2.2 + 1)
  else acc

/-- Token total of one run: the inner `reduce((aSum, a) => aSum +
(a.inputTokens || 0) + (a.outputTokens || 0), 0)`. -/
def runTokens (r : RunResult) : Nat :=
  r.attempts.foldl (fun aSum a => aSum + a.inputTokens.getD 0 + a.outputTokens.getD 0) 0

/-- Function `calculateScenarioSummary` from `src/lib/storage.ts`. -/
def calculateScenarioSummary (runs : List RunResult) : Summary :=
  if runs.length = 0 then
    { successRate := 0
      firstAttemptSuccessRate := 0
      afterRetry1SuccessRate := 0
      afterRetry2SuccessRate := 0
      afterRetry3SuccessRate := 0
      averageDurationMs := 0
      averageAttempts := 0
      totalTokensUsed := 0 }
  else
    let totalRuns : Nat := runs.length
    let successfulRuns : Nat := (runs.filter (·.success)).length
    let firstAttemptSuccesses : Nat := (runs.filter (fun r => attemptSuccessAt r 0)).length
    let tiers := runs.foldl summaryStep
      (firstAttemptSuccesses, firstAttemptSuccesses, firstAttemptSuccesses)
    let totalDuration : Nat := runs.foldl (fun sum r => sum + r.totalDurationMs) 0
    let totalAttempts : Nat := runs.foldl (fun sum r => sum + r.attempts.length) 0
    let totalTokens : Nat := runs.foldl (fun sum r => sum + runTokens r) 0
    { successRate := (successfulRuns : ℚ) / (totalRuns : ℚ) * 100
      firstAttemptSuccessRate := (firstAttemptSuccesses : ℚ) / (totalRuns : ℚ) * 100
      afterRetry1SuccessRate := (tiers.1 : ℚ) / (totalRuns : ℚ) * 100
      afterRetry2SuccessRate := (tiers.2.1 : ℚ) / (totalRuns : ℚ) * 100
      afterRetry3SuccessRate := (tiers.2.2 : ℚ) / (totalRuns : ℚ) * 100
      averageDurationMs := (totalDuration : ℚ) / (totalRuns : ℚ)
      averageAttempts := (totalAttempts : ℚ) / (totalRuns : ℚ)
      totalTokensUsed := totalTokens }

/-! ## Conversation (`src/lib/conversation.ts`) -/

/-- Record `Message` from `src/lib/conversation.ts`. -/
structure ConvMessage where
  participant : String
  message : String
deriving DecidableEq, Repr

/-- JavaScript `Array.prototype.join(sep)` over an array of strings. -/
def joinSep (sep : String) : List String → String
  | [] => ""
  | [x] => x
  | x :: xs => x ++ sep ++ joinSep sep xs

/-- Constant `conversation` from `src/lib/conversation.ts`. -/
def conversation : List ConvMessage :=
  [ { participant := "Casey"
      message := "Hey team, we've got a problem. Three enterprise customers are complaining about slow load times on the dashboard. One of them is threatening to churn if we don't fix it by end of month." }
  , { participant := "Alex"
      message := "I've been looking into it. The main dashboard query is taking 8-12 seconds on accounts with more than 50k records. It's definitely a database issue." }
  , { participant := "Jordan"
      message := "I added some basic indexes last week but it didn't help much. The query is joining across 4 tables and aggregating a lot of data." }
  , { participant := "Sam"
      message := "From the frontend side, I can add loading skeletons and pagination, but that's just masking the problem. Users are going to notice the wait regardless." }
  , { participant := "Morgan"
      message := "I checked the database server metrics. CPU and memory look fine, but I'm seeing a lot of disk I/O. Not sure what that means for query performance though." }
  , { participant := "Alex"
      message := "I tried rewriting the query to use subqueries instead of joins, but it actually made it slower. I'm kind of out of ideas here." }
  , { participant := "Jordan"
      message := "Should we look at caching? We could cache the dashboard data in Redis and refresh it every few minutes." }
  , { participant := "Casey"
      message := "The customers want real-time data, or at least near real-time. A few minutes delay isn't going to work for their use case." }
  , { participant := "Sam"
      message := "What about lazy loading sections of the dashboard? We could load the critical metrics first and the rest async." }
  , { participant := "Alex"
      message := "That helps with perceived performance, but the underlying query is still slow. And some customers have dashboards with all sections visible - they'd still see the delay." }
  , { participant := "Morgan"
      message := "I could spin up a read replica to offload the dashboard queries from the primary database. Would that help?" }
  , { participant := "Jordan"
      message := "It might reduce load on the primary, but the query itself would still be slow. We need to optimise the actual query execution." }
  , { participant := "Casey"
      message := "What about the table structure itself? Maybe we need to redesign how we're storing this data?" }
  , { participant := "Alex"
      message := "That's crossed my mind. But honestly, I'm not confident about making schema changes without knowing exactly what's causing the bottleneck. We could make it worse." }
  , { participant := "Jordan"
      message := "I looked at EXPLAIN ANALYZE on the query. There's a sequential scan on the events table that takes most of the time. But I'm not sure how to fix it without breaking other queries that depend on that table." }
  , { participant := "Morgan"
      message := "Should we consider moving to a different database? I've heard TimescaleDB is good for time-series data, and a lot of our data is event-based." }
  , { participant := "Alex"
      message := "That's a huge migration. We'd need someone who really knows what they're doing to evaluate whether it's worth it and plan the migration properly." }
  , { participant := "Sam"
      message := "It feels like we're all guessing at this point. None of us are database experts. We know enough to be dangerous but not enough to fix this properly." }
  , { participant := "Casey"
      message := "I agree. We've been circling on this for two weeks now. Maybe we need to bring in someone who specialises in this stuff?" }
  , { participant := "Alex"
      message := "Yeah, I think that's the right call. We need someone who can analyse the query plans, optimise the schema, set up proper indexing strategies, and maybe advise on whether we need a different database architecture altogether." }
  ]

/-- Function `formatConversation` from `src/lib/conversation.ts`. -/
def formatConversation : String :=
  joinSep "\n\n" (conversation.map (fun msg => msg.participant ++ ": " ++ msg.message))

/-! ## Prompts (`src/lib/prompts.ts`)

The constants `responseSchemaJsonText` and `partNJsonSchemaText` stand in for
the output of `schemaToJsonString` (zod's `toJSONSchema` rendering, an
external library); no claim depends on their text. -/

/-- Constant `systemPrompt` from `src/lib/prompts.ts`. -/
def systemPrompt : String :=
  "You are a recruiter AI assistant. Your job is to analyse team conversations and recommend new team members who could help solve problems the team is facing.\n\nWhen you identify a skill gap in the team, recommend a specific role that would fill that gap. Provide:\n- A clear job title\n- An explanation of why this role is needed\n- The specific skills required\n- A system prompt that could be used to configure an AI assistant for this role\n- Whether the role requires \"reasoning\" (analytical/logical) or \"semantic\" (creative/conversational) capabilities\n\nBe specific and practical in your recommendations."

/-- Stand-in for `schemaToJsonString(ResponseSchema)`: the JSON-Schema text
rendered by the external zod library.  Treated as an uninterpreted literal. -/
def responseSchemaJsonText : String :=
  "(JSON Schema, draft-7, rendered from ResponseSchema by zod)"

/-- Stand-in for `schemaToJsonString(SequentialPart1Schema)`. -/
def part1JsonSchemaText : String :=
  "(JSON Schema, draft-7, rendered from SequentialPart1Schema by zod)"

/-- Stand-in for `schemaToJsonString(SequentialPart2Schema)`. -/
def part2JsonSchemaText : String :=
  "(JSON Schema, draft-7, rendered from SequentialPart2Schema by zod)"

/-- Stand-in for `schemaToJsonString(SequentialPart3Schema)`. -/
def part3JsonSchemaText : String :=
  "(JSON Schema, draft-7, rendered from SequentialPart3Schema by zod)"

/-- Function `getOneShotPrompt` from `src/lib/prompts.ts`. -/
def getOneShotPrompt : String :=
  "Based on the conversation above, recommend a team member who could help solve their problem.\n\nRespond ONLY with valid JSON matching this exact structure:\n" ++ responseSchemaJsonText ++ "\n\nImportant:\n- Return ONLY valid JSON, no markdown code blocks or backticks\n- All fields are required unless marked as nullable\n- The \"recommendation\" field should start with \"I think you need to hire...\"\n- Skills array should have 3-7 items\n- Follow the exact structure shown above"

/-- Constant `oneShotStrictPrompt` from `src/lib/prompts.ts`. -/
def oneShotStrictPrompt : String :=
  "Based on the conversation above, recommend a team member who could help solve their problem.\n\nYour recommendation should include:\n- A clear explanation of why you're recommending this role\n- The job title\n- Why this role addresses their specific problem\n- 3-7 required skills\n- A system prompt for an AI in this role\n- Whether \"reasoning\" or \"semantic\" model type is best suited"

/-- Pair of prompt variants for one sequential step. -/
structure ModePrompts where
  nonStrict : String
  strict : String
deriving DecidableEq, Repr

/-- Three-step prompt table shape of `sequentialPrompts`. -/
structure SeqPrompts where
  step1 : ModePrompts
  step2 : ModePrompts
  step3 : ModePrompts
deriving DecidableEq, Repr

/-- Constant `sequentialPrompts` from `src/lib/prompts.ts`. -/
def sequentialPrompts : SeqPrompts :=
  { step1 :=
      { nonStrict := "Based on the conversation, what type of team member should this team add?\n\nRespond with JSON:\n" ++ part1JsonSchemaText ++ "\n\nImportant:\n- Return ONLY valid JSON, no markdown code blocks\n- The \"recommendation\" should explain your hiring recommendation\n- Set \"action\" to \"create_actor\" if recommending someone, or null if not"
        strict := "Based on the conversation, what type of team member should this team add?\n\nProvide a recommendation explaining who they should hire and why. Set action to \"create_actor\" to recommend a new team member." }
    step2 :=
      { nonStrict := "For the role you recommended, provide their details.\n\nRespond with JSON:\n" ++ part2JsonSchemaText ++ "\n\nImportant:\n- Return ONLY valid JSON, no markdown code blocks\n- Provide 3-7 specific skills\n- The \"reason\" should explain how this role addresses the team's problem"
        strict := "For the role you recommended, provide their details.\n\nInclude:\n- The specific job title\n- Why this role addresses the team's skill gap\n- 3-7 specific technical skills they would need" }
    step3 :=
      { nonStrict := "For this role, provide the AI system prompt and model type.\n\nRespond with JSON:\n" ++ part3JsonSchemaText ++ "\n\nImportant:\n- Return ONLY valid JSON, no markdown code blocks\n- The \"prompt\" should be a system prompt for an AI assistant in this role\n- \"model\" should be \"reasoning\" for analytical tasks or \"semantic\" for creative tasks"
        strict := "For this role, provide the AI configuration.\n\nInclude:\n- A system prompt that would configure an AI assistant for this role\n- Whether \"reasoning\" (for analytical/logical tasks) or \"semantic\" (for creative/conversational tasks) model type is more appropriate" } }

/-- Function `getRetryPrompt` from `src/lib/prompts.ts`: the corrective
message embedding the previous raw response and the normalized errors. -/
def getRetryPrompt (previousResponse : String)
    (validationErrors : List ValidationError) : String :=
  let errorList := joinSep "\n" (validationErrors.map (fun err =>
    let path := if err.path.length > 0 then joinSep "." err.path else "root"
    "• " ++ path ++ ": " ++ err.message))
  "<validation_retry>\nYour previous response failed JSON validation:\n\n<previous_response>\n" ++
    previousResponse ++
    "\n</previous_response>\n\n<validation_errors>\n" ++
    errorList ++
    "\n</validation_errors>\n\n<instructions>\n1. Review the specific validation errors above\n2. Identify what needs to be fixed in your response\n3. Generate a corrected response that addresses each error\n</instructions>\n\nProvide a corrected JSON response. Return ONLY valid JSON with no additional text, explanations, or markdown formatting.\n</validation_retry>"

/-! ## Messages -/

/-- Message roles accepted by the executors. -/
inductive Role where
  | system
  | user
  | assistant
deriving DecidableEq, Repr

/-- Rendering of a role used when logging the prompt text. -/
def roleString : Role → String
  | Role.system => "system"
  | Role.user => "user"
  | Role.assistant => "assistant"

/-- Role-tagged message, as in the executors' `messages` arrays. -/
structure ChatMessage where
  role : Role
  content : String
deriving DecidableEq, Repr

/-- Logged prompt text: the expression
`messages.map(m => [role] content).join('\n\n')` from the executors. -/
def promptText (messages : List ChatMessage) : String :=
  joinSep "\n\n" (messages.map (fun m => "[" ++ roleString m.role ++ "] " ++ m.content))

/-- Second base message of every scenario, wrapping the conversation. -/
def conversationUserMessage : String :=
  "Here is a conversation between team members:\n\n" ++ formatConversation

/-! ## Attempt executors (`src/lib/test-runner.ts`)

One generation call is abstracted as an oracle-supplied outcome.  For the
guided (non-strict) mode the oracle provides the raw text, the token usage
and the classification of `JSON.parse` + `schema.parse` applied to the raw
text; a throw of the underlying `generateText` call is `threw`.  For the
enforced (strict) mode the oracle describes what `generateObject` did. -/

/-- Classification of `JSON.parse(extractJson(raw))` followed by
`schema.parse` inside `runNonStrictAttempt`. -/
inductive GenParse (α : Type) where
  | valid (v : α)
  | zodErrors (errs : List ValidationError)
  | syntaxError (msg : String)
deriving DecidableEq, Repr

/-- One `generateText` interaction: either it returned text (with usage
counts, already defaulted to 0 by `|| 0` as in the source) or it threw at the
transport level. -/
inductive GenTextOutcome (α : Type) where
  | returned (raw : String) (inputTokens outputTokens : Nat) (parse : GenParse α)
  | threw (msg : String)
deriving DecidableEq, Repr

/-- One guided-mode call together with its wall-clock metadata (the
`Date.now()` difference and `new Date().toISOString()` are external inputs). -/
structure NonStrictCall (α : Type) where
  outcome : GenTextOutcome α
  durationMs : Nat
  timestamp : String

/-- One `generateObject` interaction: a validated object with its serialized
form and usage, a schema-shaped rejection (`ZodError`), or any other error. -/
inductive GenObjectOutcome (α : Type) where
  | returned (v : α) (raw : String) (inputTokens outputTokens : Nat)
  | zodError (errs : List ValidationError)
  | otherError (msg : String)
deriving DecidableEq, Repr

/-- One strict-mode call with wall-clock metadata. -/
structure StrictCall (α : Type) where
  outcome : GenObjectOutcome α
  durationMs : Nat
  timestamp : String

/-- Return value of the two attempt executors.  The TypeScript functions
return `{success: true, data, raw, tokens}` or
`{success: false, raw, errors, tokens?}`; this union is the faithful shape. -/
inductive AttemptOut (α : Type) where
  | ok (v : α) (raw : String) (inputTokens outputTokens : Nat)
  | fail (raw : String) (errors : List ValidationError) (tokens : Option (Nat × Nat))
deriving DecidableEq, Repr

/-- Function `runNonStrictAttempt` from `src/lib/test-runner.ts`.  A Zod
failure or a JSON `SyntaxError` is absorbed into a failed outcome (with the
usage counts recorded); any other throw — in particular a transport-level
throw of `generateText` — is re-raised (`Except.error`). -/
def runNonStrictAttempt {α : Type} (g : GenTextOutcome α) :
    Except String (AttemptOut α) :=
  match g with
  | GenTextOutcome.returned raw i o (GenParse.valid v) =>
    Except.ok (AttemptOut.ok v raw i o)
  | GenTextOutcome.returned raw i o (GenParse.zodErrors errs) =>
    Except.ok (AttemptOut.fail raw errs (some (i, o)))
  | GenTextOutcome.returned raw i o (GenParse.syntaxError msg) =>
    Except.ok (AttemptOut.fail raw
      [{ path := [], message := "Invalid JSON: " ++ msg, code := "invalid_json" }]
      (some (i, o)))
  | GenTextOutcome.threw msg => Except.error msg

/-- Function `runStrictAttempt` from `src/lib/test-runner.ts`.  Every throw is
caught: a `ZodError` becomes normalized errors, anything else becomes a single
error with code `api_error`; in both failure branches `raw` is `''` and no
usage is recorded. -/
def runStrictAttempt {α : Type} (g : GenObjectOutcome α) : AttemptOut α :=
  match g with
  | GenObjectOutcome.returned v raw i o => AttemptOut.ok v raw i o
  | GenObjectOutcome.zodError errs => AttemptOut.fail "" errs none
  | GenObjectOutcome.otherError msg =>
    AttemptOut.fail "" [{ path := [], message := msg, code := "api_error" }] none

/-- Assembly of the `AttemptResult` record that every executor pushes after an
attempt (identical literal in all four scenario functions). -/
def mkAttempt {α : Type} (attemptNumber : Nat) (timestamp : String)
    (durationMs : Nat) (prompt : String) (toParsed : α → Parsed)
    (out : AttemptOut α) : AttemptResult :=
  match out with
  | AttemptOut.ok v raw i o =>
    { attemptNumber := attemptNumber, timestamp := timestamp, success := true
      durationMs := durationMs, inputTokens := some i, outputTokens := some o
      prompt := prompt, rawResponse := raw, parsedResponse := some (toParsed v)
      validationErrors := [], errorMessage := none }
  | AttemptOut.fail raw errs tokens =>
    { attemptNumber := attemptNumber, timestamp := timestamp, success := false
      durationMs := durationMs, inputTokens := tokens.map Prod.fst
      outputTokens := tokens.map Prod.snd, prompt := prompt, rawResponse := raw
      parsedResponse := none, validationErrors := errs, errorMessage := none }

/-! ## Scenario 1: one-shot, non-strict -/

/-- Base messages of scenarios 1 (system prompt, conversation, one-shot
guided prompt). -/
def scenario1BaseMessages : List ChatMessage :=
  [ { role := Role.system, content := systemPrompt }
  , { role := Role.user, content := conversationUserMessage }
  , { role := Role.user, content := getOneShotPrompt } ]

/-- Retry-context pair appended in guided mode: the previous raw response as
an assistant turn plus the corrective user message. -/
def retryContext (rawResponse : String) (errors : List ValidationError) :
    List ChatMessage :=
  [ { role := Role.assistant, content := rawResponse }
  , { role := Role.user, content := getRetryPrompt rawResponse errors } ]

/-- Message list sent by `runScenario1` on a given attempt: the three base
messages, plus — from the second attempt on — the retry context built from
the last attempt already pushed (`attempts[attempts.length - 1]`). -/
def scenario1Messages (attempt : Nat) (acc : List AttemptResult) : List ChatMessage :=
  if attempt > 1 ∧ acc.length > 0 then
    match acc.getLast? with
    | some lastAttempt =>
      scenario1BaseMessages ++
        retryContext lastAttempt.rawResponse lastAttempt.validationErrors
    | none => scenario1BaseMessages
  else scenario1BaseMessages

/-- Attempt loop of `runScenario1` (the `for (let attempt = 1; ...)` body).
`fuel` is the number of attempts still allowed (starting at
`maxRetries + 1`), `acc` the attempts already pushed for this run; the
return value lists only the newly pushed attempts, with the final success
flag and final response. -/
def scenario1Go (oracle : Nat → NonStrictCall Response) :
    Nat → Nat → List AttemptResult →
      Except String (List AttemptResult × Bool × Option Response)
  | 0, _, _ => Except.ok ([], false, none)
  | fuel + 1, attempt, acc =>
    let messages := scenario1Messages attempt acc
    let call := oracle attempt
    match runNonStrictAttempt call.outcome with
    | Except.error msg => Except.error msg
    | Except.ok out =>
      let ar := mkAttempt attempt call.timestamp call.durationMs
        (promptText messages) Parsed.resp out
      match out with
      | AttemptOut.ok v _ _ _ => Except.ok ([ar], true, some v)
      | AttemptOut.fail _ _ _ =>
        match scenario1Go oracle fuel (attempt + 1) (acc ++ [ar]) with
        | Except.error msg => Except.error msg
        | Except.ok (rest, succ, fin) => Except.ok (ar :: rest, succ, fin)

/-- Run loop of `runScenario1` over the given run numbers; a transport throw
inside any run aborts the whole scenario (there is no try/catch in
`runScenario1`). -/
def scenario1Runs (cfg : TestConfig) (oracle : Nat → Nat → NonStrictCall Response)
    (runDur : Nat → Nat) : List Nat → Except String (List RunResult)
  | [] => Except.ok []
  | runNum :: rest =>
    match scenario1Go (oracle runNum) (cfg.maxRetries + 1) 1 [] with
    | Except.error msg => Except.error msg
    | Except.ok (attempts, success, finalResponse) =>
      match scenario1Runs cfg oracle runDur rest with
      | Except.error msg => Except.error msg
      | Except.ok runs =>
        Except.ok ({ runNumber := runNum, success := success, attempts := attempts
                     totalDurationMs := runDur runNum
                     finalResponse := finalResponse } :: runs)

/-- Function `runScenario1` from `src/lib/test-runner.ts`, parameterized by
the per-run, per-attempt generation oracle and the per-run wall-clock
duration. -/
def runScenario1 (cfg : TestConfig) (oracle : Nat → Nat → NonStrictCall Response)
    (runDur : Nat → Nat) : Except String (List RunResult) :=
  scenario1Runs cfg oracle runDur ((List.range cfg.runsPerScenario).map (· + 1))

/-! ## Scenario 2: one-shot, strict -/

/-- Base messages of scenario 2; the message list is rebuilt identically on
every attempt — no retry context is ever added. -/
def scenario2BaseMessages : List ChatMessage :=
  [ { role := Role.system, content := systemPrompt }
  , { role := Role.user, content := conversationUserMessage }
  , { role := Role.user, content := oneShotStrictPrompt } ]

/-- Attempt loop of `runScenario2`; total, since `runStrictAttempt` absorbs
every failure. -/
def scenario2Go (oracle : Nat → StrictCall Response) :
    Nat → Nat → List AttemptResult × Bool × Option Response
  | 0, _ => ([], false, none)
  | fuel + 1, attempt =>
    let call := oracle attempt
    let out := runStrictAttempt call.outcome
    let ar := mkAttempt attempt call.timestamp call.durationMs
      (promptText scenario2BaseMessages) Parsed.resp out
    match out with
    | AttemptOut.ok v _ _ _ => ([ar], true, some v)
    | AttemptOut.fail _ _ _ =>
      let next := scenario2Go oracle fuel (attempt + 1)
      (ar :: next.1, next.2.1, next.2.2)

/-- Function `runScenario2` from `src/lib/test-runner.ts`. -/
def runScenario2 (cfg : TestConfig) (oracle : Nat → Nat → StrictCall Response)
    (runDur : Nat → Nat) : List RunResult :=
  ((List.range cfg.runsPerScenario).map (· + 1)).map (fun runNum =>
    let r := scenario2Go (oracle runNum) (cfg.maxRetries + 1) 1
    { runNumber := runNum, success := r.2.1, attempts := r.1
      totalDurationMs := runDur runNum, finalResponse := r.2.2 })

/-! ## Scenarios 3 and 4: sequential -/

/-- Stand-in for JavaScript string quoting inside `JSON.stringify` (no escape
handling; the serialized text is never inspected by any claim). -/
def jsonQuote (s : String) : String := "\"" ++ s ++ "\""

/-- Stand-in for `JSON.stringify(step1Result)`. -/
def stringifyPart1 (p : SequentialPart1) : String :=
  "\x7b\"recommendation\":" ++ jsonQuote p.recommendation ++ ",\"action\":" ++
    (match p.action with
     | some a => jsonQuote a
     | none => "null") ++ "\x7d"

/-- Stand-in for `JSON.stringify(step2Result)`. -/
def stringifyPart2 (p : SequentialPart2) : String :=
  "\x7b\"title\":" ++ jsonQuote p.title ++ ",\"reason\":" ++ jsonQuote p.reason ++
    ",\"skills\":[" ++ joinSep "," (p.skills.map jsonQuote) ++ "]\x7d"

/-- Outcome of one sequential stage: a validated value, an exhausted retry
budget, or a transport-level throw caught by the run-level `try`. -/
inductive StageOut (α : Type) where
  | done (v : α)
  | exhausted
  | threw (msg : String)
deriving DecidableEq, Repr

/-- One stage loop of `runScenario3`: guided attempts with the message list
growing by a retry-context pair after every failure.  Returns the attempts
pushed by this stage (a transport throw records no attempt for the throwing
call but keeps the earlier ones, as the shared `attempts` array does). -/
def seqStage {α : Type} (toParsed : α → Parsed)
    (oracle : Nat → NonStrictCall α) :
    Nat → Nat → List ChatMessage → List AttemptResult × StageOut α
  | 0, _, _ => ([], StageOut.exhausted)
  | fuel + 1, attempt, messages =>
    let call := oracle attempt
    match runNonStrictAttempt call.outcome with
    | Except.error msg => ([], StageOut.threw msg)
    | Except.ok out =>
      let ar := mkAttempt attempt call.timestamp call.durationMs
        (promptText messages) toParsed out
      match out with
      | AttemptOut.ok v _ _ _ => ([ar], StageOut.done v)
      | AttemptOut.fail raw errs _ =>
        let next := seqStage toParsed oracle fuel (attempt + 1)
          (messages ++ retryContext raw errs)
        (ar :: next.1, next.2)

/-- One stage loop of `runScenario4`: strict attempts, constant messages, no
retry context, never throws. -/
def seqStageStrict {α : Type} (toParsed : α → Parsed)
    (oracle : Nat → StrictCall α) :
    Nat → Nat → List ChatMessage → List AttemptResult × StageOut α
  | 0, _, _ => ([], StageOut.exhausted)
  | fuel + 1, attempt, messages =>
    let call := oracle attempt
    let out := runStrictAttempt call.outcome
    let ar := mkAttempt attempt call.timestamp call.durationMs
      (promptText messages) toParsed out
    match out with
    | AttemptOut.ok v _ _ _ => ([ar], StageOut.done v)
    | AttemptOut.fail _ _ _ =>
      let next := seqStageStrict toParsed oracle fuel (attempt + 1) messages
      (ar :: next.1, next.2)

/-- Generation oracle for one three-stage guided run: one attempt oracle per
stage. -/
structure Scenario3RunOracle where
  s1 : Nat → NonStrictCall SequentialPart1
  s2 : Nat → NonStrictCall SequentialPart2
  s3 : Nat → NonStrictCall SequentialPart3

/-- Generation oracle for one three-stage strict run. -/
structure Scenario4RunOracle where
  s1 : Nat → StrictCall SequentialPart1
  s2 : Nat → StrictCall SequentialPart2
  s3 : Nat → StrictCall SequentialPart3

/-- Base messages of stage 1 in scenario 3. -/
def scenario3Step1Messages : List ChatMessage :=
  [ { role := Role.system, content := systemPrompt }
  , { role := Role.user, content := conversationUserMessage }
  , { role := Role.user, content := sequentialPrompts.step1.nonStrict } ]

/-- Base messages of stage 2 in scenario 3 (stage 1's validated output is
chained in as an assistant turn). -/
def scenario3Step2Messages (step1Result : SequentialPart1) : List ChatMessage :=
  [ { role := Role.system, content := systemPrompt }
  , { role := Role.user, content := conversationUserMessage }
  , { role := Role.assistant, content := stringifyPart1 step1Result }
  , { role := Role.user, content := sequentialPrompts.step2.nonStrict } ]

/-- Base messages of stage 3 in scenario 3. -/
def scenario3Step3Messages (step1Result : SequentialPart1)
    (step2Result : SequentialPart2) : List ChatMessage :=
  [ { role := Role.system, content := systemPrompt }
  , { role := Role.user, content := conversationUserMessage }
  , { role := Role.assistant, content := stringifyPart1 step1Result }
  , { role := Role.assistant, content := stringifyPart2 step2Result }
  , { role := Role.user, content := sequentialPrompts.step3.nonStrict } ]

/-- Failed-run record: `success` stays `false`, `finalResponse` stays `null`,
every attempt pushed so far is kept. -/
def failedRun (runNumber : Nat) (attempts : List AttemptResult)
    (totalDurationMs : Nat) : RunResult :=
  { runNumber := runNumber, success := false, attempts := attempts
    totalDurationMs := totalDurationMs, finalResponse := none }

/-- One run of `runScenario3`: three chained stages inside a `try`; any stage
failure (exhausted budget or transport throw) aborts the run, keeping the
attempts pushed so far; after three successes the merged object is validated
against `ResponseSchema` (a failure there is caught like any other throw). -/
def scenario3Run (cfg : TestConfig) (o : Scenario3RunOracle)
    (runNumber runDur : Nat) : RunResult :=
  match seqStage Parsed.part1 o.s1 (cfg.maxRetries + 1) 1 scenario3Step1Messages with
  | (a1, StageOut.done step1Result) =>
    match seqStage Parsed.part2 o.s2 (cfg.maxRetries + 1) 1
        (scenario3Step2Messages step1Result) with
    | (a2, StageOut.done step2Result) =>
      match seqStage Parsed.part3 o.s3 (cfg.maxRetries + 1) 1
          (scenario3Step3Messages step1Result step2Result) with
      | (a3, StageOut.done step3Result) =>
        let merged := mergeSequentialParts step1Result step2Result step3Result
        if responseSchemaValid merged then
          { runNumber := runNumber, success := true
            attempts := a1 ++ a2 ++ a3
            totalDurationMs := runDur, finalResponse := some merged }
        else failedRun runNumber (a1 ++ a2 ++ a3) runDur
      | (a3, _) => failedRun runNumber (a1 ++ a2 ++ a3) runDur
    | (a2, _) => failedRun runNumber (a1 ++ a2) runDur
  | (a1, _) => failedRun runNumber a1 runDur

/-- Function `runScenario3` from `src/lib/test-runner.ts`. -/
def runScenario3 (cfg : TestConfig) (oracle : Nat → Scenario3RunOracle)
    (runDur : Nat → Nat) : List RunResult :=
  ((List.range cfg.runsPerScenario).map (· + 1)).map (fun runNum =>
    scenario3Run cfg (oracle runNum) runNum (runDur runNum))

/-- Base messages of stage 1 in scenario 4. -/
def scenario4Step1Messages : List ChatMessage :=
  [ { role := Role.system, content := systemPrompt }
  , { role := Role.user, content := conversationUserMessage }
  , { role := Role.user, content := sequentialPrompts.step1.strict } ]

/-- Base messages of stage 2 in scenario 4. -/
def scenario4Step2Messages (step1Result : SequentialPart1) : List ChatMessage :=
  [ { role := Role.system, content := systemPrompt }
  , { role := Role.user, content := conversationUserMessage }
  , { role := Role.assistant, content := stringifyPart1 step1Result }
  , { role := Role.user, content := sequentialPrompts.step2.strict } ]

/-- Base messages of stage 3 in scenario 4. -/
def scenario4Step3Messages (step1Result : SequentialPart1)
    (step2Result : SequentialPart2) : List ChatMessage :=
  [ { role := Role.system, content := systemPrompt }
  , { role := Role.user, content := conversationUserMessage }
  , { role := Role.assistant, content := stringifyPart1 step1Result }
  , { role := Role.assistant, content := stringifyPart2 step2Result }
  , { role := Role.user, content := sequentialPrompts.step3.strict } ]

/-- One run of `runScenario4`. -/
def scenario4Run (cfg : TestConfig) (o : Scenario4RunOracle)
    (runNumber runDur : Nat) : RunResult :=
  match seqStageStrict Parsed.part1 o.s1 (cfg.maxRetries + 1) 1 scenario4Step1Messages with
  | (a1, StageOut.done step1Result) =>
    match seqStageStrict Parsed.part2 o.s2 (cfg.maxRetries + 1) 1
        (scenario4Step2Messages step1Result) with
    | (a2, StageOut.done step2Result) =>
      match seqStageStrict Parsed.part3 o.s3 (cfg.maxRetries + 1) 1
          (scenario4Step3Messages step1Result step2Result) with
      | (a3, StageOut.done step3Result) =>
        let merged := mergeSequentialParts step1Result step2Result step3Result
        if responseSchemaValid merged then
          { runNumber := runNumber, success := true
            attempts := a1 ++ a2 ++ a3
            totalDurationMs := runDur, finalResponse := some merged }
        else failedRun runNumber (a1 ++ a2 ++ a3) runDur
      | (a3, _) => failedRun runNumber (a1 ++ a2 ++ a3) runDur
    | (a2, _) => failedRun runNumber (a1 ++ a2) runDur
  | (a1, _) => failedRun runNumber a1 runDur

/-- Function `runScenario4` from `src/lib/test-runner.ts`. -/
def runScenario4 (cfg : TestConfig) (oracle : Nat → Scenario4RunOracle)
    (runDur : Nat → Nat) : List RunResult :=
  ((List.range cfg.runsPerScenario).map (· + 1)).map (fun runNum =>
    scenario4Run cfg (oracle runNum) runNum (runDur runNum))

/-! ## Specification-side predicates for the aggregator -/

/-- Spec-side tier-1 predicate of §4.4: a run not counted at the first
attempt whose second attempt exists and succeeds. -/
def tier1P (r : RunResult) : Bool :=
  !attemptSuccessAt r 0 && attemptSuccessAt r 1

/-- Spec-side cumulative tier-2 predicate: not counted at the first attempt,
rescued by attempt 2 or attempt 3. -/
def tier2P (r : RunResult) : Bool :=
  !attemptSuccessAt r 0 && (attemptSuccessAt r 1 || attemptSuccessAt r 2)

/-- Spec-side cumulative tier-3 predicate: not counted at the first attempt,
rescued by attempt 2, 3 or 4. -/
def tier3P (r : RunResult) : Bool :=
  !attemptSuccessAt r 0 && (attemptSuccessAt r 1 || attemptSuccessAt r 2 || attemptSuccessAt r 3)

/-- Shape invariant of the attempt list produced by a one-stage retry loop
with at most `maxA` attempts: a successful loop ends with its one successful
attempt, a failed loop used the whole budget and every attempt failed. -/
def goodAttempts (maxA : Nat) (atts : List AttemptResult) (succ : Bool) : Prop :=
  atts.length ≤ maxA ∧
  (succ = true → ∃ pre last, atts = pre ++ [last] ∧ last.success = true ∧
    ∀ a ∈ pre, a.success = false) ∧
  (succ = false → atts.length = maxA ∧ ∀ a ∈ atts, a.success = false)

/-! ## Concrete data used by witnesses and counterexamples -/

/-- Default attempt record used only to totalize list indexing in closed
statements. -/
def defaultAttempt : AttemptResult :=
  { attemptNumber := 0, timestamp := "", success := false, durationMs := 0
    inputTokens := none, outputTokens := none, prompt := "", rawResponse := ""
    parsedResponse := none, validationErrors := [], errorMessage := none }

/-- Default run record used only to totalize list indexing in closed
statements. -/
def defaultRun : RunResult :=
  { runNumber := 0, success := false, attempts := [], totalDurationMs := 0
    finalResponse := none }

/-- Sample actor satisfying `ActorSchema`. -/
def exActor : Actor :=
  { title := "DBA", reason := "needs db help, long enough text"
    skills := ["PostgreSQL", "Indexing", "Tuning"]
    prompt := "You are a DBA expert with enough characters"
    model := ModelType.reasoning }

/-- Sample full response satisfying `ResponseSchema`. -/
def exResponse : Response :=
  { recommendation := "I think you need to hire a database administrator"
    action := some { type := "create_actor", actor := exActor } }

/-- Sample stage-1 output recommending a hire. -/
def exPart1 : SequentialPart1 :=
  { recommendation := "I think you need to hire a database administrator"
    action := some "create_actor" }

/-- Sample stage-1 output with a null action. -/
def exPart1Null : SequentialPart1 :=
  { recommendation := "I think you need to hire a database administrator"
    action := none }

/-- Sample stage-2 output. -/
def exPart2 : SequentialPart2 :=
  { title := "DBA", reason := "needs db help, long enough text"
    skills := ["PostgreSQL", "Indexing", "Tuning"] }

/-- Sample stage-3 output. -/
def exPart3 : SequentialPart3 :=
  { prompt := "You are a DBA expert with enough characters", model := ModelType.reasoning }

/-- Sample normalized validation error. -/
def zodErr : ValidationError :=
  { path := ["recommendation"], message := "Too small", code := "too_small" }

/-- Guided-mode call that validates. -/
def okTextCall {α : Type} (v : α) : NonStrictCall α :=
  { outcome := GenTextOutcome.returned "raw-ok" 10 20 (GenParse.valid v)
    durationMs := 5, timestamp := "t" }

/-- Guided-mode call failing Zod validation. -/
def failTextCall {α : Type} : NonStrictCall α :=
  { outcome := GenTextOutcome.returned "raw-bad" 10 20 (GenParse.zodErrors [zodErr])
    durationMs := 5, timestamp := "t" }

/-- Guided-mode call whose `generateText` throws at the transport level. -/
def threwTextCall {α : Type} (msg : String) : NonStrictCall α :=
  { outcome := GenTextOutcome.threw msg, durationMs := 5, timestamp := "t" }

/-- Strict-mode call that returns a validated object. -/
def okObjCall {α : Type} (v : α) : StrictCall α :=
  { outcome := GenObjectOutcome.returned v "raw-obj" 10 20
    durationMs := 5, timestamp := "t" }

/-- Strict-mode call rejected with a `ZodError`. -/
def zodFailObjCall {α : Type} : StrictCall α :=
  { outcome := GenObjectOutcome.zodError [zodErr], durationMs := 5, timestamp := "t" }

/-- Strict-mode call failing with a non-validation error. -/
def apiFailObjCall {α : Type} (msg : String) : StrictCall α :=
  { outcome := GenObjectOutcome.otherError msg, durationMs := 5, timestamp := "t" }

/-- Default configuration restricted to a single run per scenario. -/
def cfgOneRun : TestConfig := { DEFAULT_CONFIG with runsPerScenario := 1 }

/-- Oracle for the C1 counterexample: stage 1 validates immediately, stage 2
exhausts its whole retry budget. -/
def oracleC1ce : Nat → Scenario3RunOracle := fun _ =>
  { s1 := fun _ => okTextCall exPart1
    s2 := fun _ => failTextCall
    s3 := fun _ => failTextCall }

/-- Scenario-3 output refuting the C1 rate chain. -/
def runsC1ce : List RunResult := runScenario3 cfgOneRun oracleC1ce (fun _ => 0)

/-- Oracle for the C2 counterexample: stages 1 and 2 succeed on their second
attempt, stage 3 on its first. -/
def oracleC2ce : Nat → Scenario3RunOracle := fun _ =>
  { s1 := fun k => if k = 1 then failTextCall else okTextCall exPart1
    s2 := fun k => if k = 1 then failTextCall else okTextCall exPart2
    s3 := fun _ => okTextCall exPart3 }

/-- Scenario-3 output refuting the C2 attempt-count bound. -/
def runsC2ce : List RunResult := runScenario3 cfgOneRun oracleC2ce (fun _ => 0)

/-- Oracle for the C3 counterexample: stage 1 immediately yields a null
action, stages 2 and 3 validate on their first attempt. -/
def oracleC3ce : Nat → Scenario3RunOracle := fun _ =>
  { s1 := fun _ => okTextCall exPart1Null
    s2 := fun _ => okTextCall exPart2
    s3 := fun _ => okTextCall exPart3 }

/-- Scenario-3 output refuting the C3 short-circuit. -/
def runsC3ce : List RunResult := runScenario3 cfgOneRun oracleC3ce (fun _ => 0)

/-- Oracle whose every guided call throws at the transport level. -/
def oracleC4ce : Nat → Nat → NonStrictCall Response := fun _ _ =>
  threwTextCall "network failure"

/-- Strict oracle whose every call fails with a non-validation error. -/
def oracleC4w : Nat → Nat → StrictCall Response := fun _ _ =>
  apiFailObjCall "network failure"

/-- Scenario-2 output under the all-transport-failure oracle. -/
def runsC4w : List RunResult := runScenario2 cfgOneRun oracleC4w (fun _ => 0)

/-- Minimal attempt record carrying only an attempt number and success flag. -/
def simpleAttempt (n : Nat) (s : Bool) : AttemptResult :=
  { attemptNumber := n, timestamp := "", success := s, durationMs := 0
    inputTokens := none, outputTokens := none, prompt := "", rawResponse := ""
    parsedResponse := none, validationErrors := [], errorMessage := none }

/-- End-to-end example of §8: run 1 succeeds on attempt 1, run 2 on attempt
2, run 3 exhausts all four attempts. -/
def exRuns : List RunResult :=
  [ { runNumber := 1, success := true, attempts := [simpleAttempt 1 true]
      totalDurationMs := 0, finalResponse := none }
  , { runNumber := 2, success := true
      attempts := [simpleAttempt 1 false, simpleAttempt 2 true]
      totalDurationMs := 0, finalResponse := none }
  , { runNumber := 3, success := false
      attempts := [simpleAttempt 1 false, simpleAttempt 2 false,
        simpleAttempt 3 false, simpleAttempt 4 false]
      totalDurationMs := 0, finalResponse := none } ]

/-- Attempt record with explicit token usage. -/
def tokAttempt (inTok outTok : Option Nat) (s : Bool) : AttemptResult :=
  { attemptNumber := 1, timestamp := "", success := s, durationMs := 0
    inputTokens := inTok, outputTokens := outTok, prompt := "", rawResponse := ""
    parsedResponse := none, validationErrors := [], errorMessage := none }

/-- Token-accounting example: failed attempts and absent counts included. -/
def exTokRuns : List RunResult :=
  [ { runNumber := 1, success := true
      attempts := [tokAttempt (some 7) (some 11) false, tokAttempt (some 3) none true]
      totalDurationMs := 0, finalResponse := none }
  , { runNumber := 2, success := false
      attempts := [tokAttempt none (some 5) false]
      totalDurationMs := 0, finalResponse := none } ]

/-- Strict oracle failing validation once, then succeeding. -/
def oracleC6 : Nat → Nat → StrictCall Response := fun _ k =>
  if k = 1 then zodFailObjCall else okObjCall exResponse

/-- Scenario-2 output for the C6 failing input: attempt 1 fails validation,
attempt 2 succeeds. -/
def runsC6 : List RunResult := runScenario2 cfgOneRun oracleC6 (fun _ => 0)

/-- Guided oracle failing validation once, then succeeding. -/
def oracleC10 : Nat → Nat → NonStrictCall Response := fun _ k =>
  if k = 1 then failTextCall else okTextCall exResponse

/-- Scenario-1 output under `oracleC10`. -/
def runsC10 : List RunResult :=
  ((runScenario1 cfgOneRun oracleC10 (fun _ => 0)).toOption).getD []

/-- Single run of `runsC10`. -/
def runC10 : RunResult := (runsC10.get? 0).getD defaultRun

/-- First attempt of `runC10`. -/
def attC10fst : AttemptResult := (runC10.attempts.get? 0).getD defaultAttempt

/-- Second attempt of `runC10`. -/
def attC10snd : AttemptResult := (runC10.attempts.get? 1).getD defaultAttempt

/-- Guided oracle failing validation on every attempt. -/
def oracleAllFailText : Nat → Nat → NonStrictCall Response := fun _ _ => failTextCall

/-- Scenario-1 output under the always-failing oracle (budget exhausted). -/
def runsC2w : List RunResult :=
  ((runScenario1 cfgOneRun oracleAllFailText (fun _ => 0)).toOption).getD []

/-- Stage-1 attempts of the C3 witness run. -/
def a1C3 : List AttemptResult :=
  (seqStage Parsed.part1 (oracleC3ce 1).s1 (cfgOneRun.maxRetries + 1) 1
    scenario3Step1Messages).1

/-- Single run of `runsC2w`. -/
def runC2wRun : RunResult := (runsC2w.get? 0).getD defaultRun

/-- Single run of `runsC4w`. -/
def runC4wRun : RunResult := (runsC4w.get? 0).getD defaultRun

/-- Single run of `runsC6`. -/
def runC6Run : RunResult := (runsC6.get? 0).getD defaultRun


/-! ## Supporting lemmas -/


theorem foldl_summaryStep_eq (runs : List RunResult) : ∀ a b c : Nat,
    runs.foldl summaryStep (a, b, c) =
      (a + (runs.filter tier1P).length, b + (runs.filter tier2P).length,
        c + (runs.filter tier3P).length) := by
  induction runs with
  | nil => intro a b c; simp
  | cons r rs ih =>
    intro a b c
    simp only [List.foldl_cons, List.filter_cons, summaryStep]
    by_cases h0 : attemptSuccessAt r 0 <;> by_cases h1 : attemptSuccessAt r 1 <;>
      by_cases h2 : attemptSuccessAt r 2 <;> by_cases h3 : attemptSuccessAt r 3 <;>
      simp [tier1P, tier2P, tier3P, h0, h1, h2, h3, ih] <;> omega

theorem filter_length_mono {α : Type} {p q : α → Bool} :
    ∀ l : List α, (∀ a ∈ l, p a = true → q a = true) →
      (l.filter p).length ≤ (l.filter q).length := by
  intro l
  induction l with
  | nil => intro _; simp
  | cons x xs ih =>
    intro h
    have ht := ih (fun a ha => h a (List.mem_cons_of_mem x ha))
    simp only [List.filter_cons]
    by_cases hp : p x = true
    · have hq := h x (List.mem_cons_self x xs) hp
      simp [hp, hq]
      omega
    · have hp' : p x = false := by
        cases hpv : p x
        · rfl
        · exact absurd hpv hp
      by_cases hq : q x = true <;> simp [hp', hq] <;> omega

theorem rate_nonneg (a n : ℕ) : (0 : ℚ) ≤ (a : ℚ) / (n : ℚ) * 100 := by positivity

theorem rate_mono {a b : ℕ} (n : ℕ) (h : a ≤ b) :
    (a : ℚ) / (n : ℚ) * 100 ≤ (b : ℚ) / (n : ℚ) * 100 := by
  rw [div_eq_mul_inv, div_eq_mul_inv]
  have hab : (a : ℚ) ≤ (b : ℚ) := by exact_mod_cast h
  have hinv : (0 : ℚ) ≤ ((n : ℚ))⁻¹ := by positivity
  have h1 : (a : ℚ) * ((n : ℚ))⁻¹ ≤ (b : ℚ) * ((n : ℚ))⁻¹ :=
    mul_le_mul_of_nonneg_right hab hinv
  nlinarith

/-- Generic sum form of a `reduce`-style fold. -/
theorem foldl_add_eq_sum {α : Type} (f : α → ℕ) (l : List α) : ∀ n : ℕ,
    l.foldl (fun s x => s + f x) n = n + (l.map f).sum := by
  induction l with
  | nil => intro n; simp
  | cons x xs ih => intro n; simp [ih]; omega

theorem filter_or_disjoint {α : Type} (p q : α → Bool)
    (hdisj : ∀ x, ¬(p x = true ∧ q x = true)) (l : List α) :
    (l.filter (fun x => p x || q x)).length = (l.filter p).length + (l.filter q).length := by
  induction l with
  | nil => simp
  | cons x xs ih =>
    simp only [List.filter_cons]
    cases hp : p x with
    | true =>
      cases hq : q x with
      | true => exact absurd ⟨hp, hq⟩ (hdisj x)
      | false => simp [hp, hq, ih]; omega
    | false =>
      cases hq : q x with
      | true => simp [hp, hq, ih]; omega
      | false => simp [hp, hq, ih]


theorem summary_fields (runs : List RunResult) (h : ¬ runs.length = 0) :
    calculateScenarioSummary runs =
      { successRate := ((runs.filter (·.success)).length : ℚ) / (runs.length : ℚ) * 100
        firstAttemptSuccessRate :=
          ((runs.filter (fun r => attemptSuccessAt r 0)).length : ℚ) / (runs.length : ℚ) * 100
        afterRetry1SuccessRate :=
          ((runs.foldl summaryStep
              ((runs.filter (fun r => attemptSuccessAt r 0)).length,
                (runs.filter (fun r => attemptSuccessAt r 0)).length,
                (runs.filter (fun r => attemptSuccessAt r 0)).length)).1 : ℚ) /
            (runs.length : ℚ) * 100
        afterRetry2SuccessRate :=
          ((runs.foldl summaryStep
              ((runs.filter (fun r => attemptSuccessAt r 0)).length,
                (runs.filter (fun r => attemptSuccessAt r 0)).length,
                (runs.filter (fun r => attemptSuccessAt r 0)).length)).2.1 : ℚ) /
            (runs.length : ℚ) * 100
        afterRetry3SuccessRate :=
          ((runs.foldl summaryStep
              ((runs.filter (fun r => attemptSuccessAt r 0)).length,
                (runs.filter (fun r => attemptSuccessAt r 0)).length,
                (runs.filter (fun r => attemptSuccessAt r 0)).length)).2.2 : ℚ) /
            (runs.length : ℚ) * 100
        averageDurationMs :=
          ((runs.foldl (fun sum r => sum + r.totalDurationMs) 0 : ℕ) : ℚ) / (runs.length : ℚ)
        averageAttempts :=
          ((runs.foldl (fun sum r => sum + r.attempts.length) 0 : ℕ) : ℚ) / (runs.length : ℚ)
        totalTokensUsed := runs.foldl (fun sum r => sum + runTokens r) 0 } := by
  unfold calculateScenarioSummary
  rw [if_neg h]

theorem mkAttempt_ok_success {α : Type} (n : Nat) (ts : String) (d : Nat) (p : String)
    (tp : α → Parsed) (v : α) (raw : String) (i o : Nat) :
    (mkAttempt n ts d p tp (AttemptOut.ok v raw i o)).success = true := rfl

theorem mkAttempt_fail_success {α : Type} (n : Nat) (ts : String) (d : Nat) (p : String)
    (tp : α → Parsed) (raw : String) (errs : List ValidationError) (tok : Option (Nat × Nat)) :
    (mkAttempt n ts d p tp (AttemptOut.fail raw errs tok)).success = false := rfl

theorem scenario1Go_sound (oracle : Nat → NonStrictCall Response) :
    ∀ fuel attempt acc atts succ fin,
      scenario1Go oracle fuel attempt acc = Except.ok (atts, succ, fin) →
      goodAttempts fuel atts succ := by
  intro fuel
  induction fuel with
  | zero =>
    intro attempt acc atts succ fin h
    simp only [scenario1Go, Except.ok.injEq, Prod.mk.injEq] at h
    obtain ⟨h1, h2, h3⟩ := h
    subst h1; subst h2
    refine ⟨by simp, ?_, ?_⟩
    · intro hc; exact absurd hc (by simp)
    · intro _; exact ⟨rfl, by simp⟩
  | succ fuel ih =>
    intro attempt acc atts succ fin h
    simp only [scenario1Go] at h
    cases hro : runNonStrictAttempt (oracle attempt).outcome with
    | error m =>
      simp only [hro] at h
      exact Except.noConfusion h
    | ok out =>
      cases out with
      | ok v raw i o =>
        simp only [hro, Except.ok.injEq, Prod.mk.injEq] at h
        obtain ⟨h1, h2, h3⟩ := h
        subst h1; subst h2
        refine ⟨by simp, ?_, ?_⟩
        · intro _
          exact ⟨[], _, rfl, rfl, by simp⟩
        · intro hc; exact absurd hc (by simp)
      | fail raw errs tok =>
        simp only [hro] at h
        cases hrec : scenario1Go oracle fuel (attempt + 1)
            (acc ++ [mkAttempt attempt (oracle attempt).timestamp
              (oracle attempt).durationMs
              (promptText (scenario1Messages attempt acc)) Parsed.resp
              (AttemptOut.fail raw errs tok)]) with
        | error m =>
          simp only [hrec] at h
          exact Except.noConfusion h
        | ok trip =>
          obtain ⟨rest, succ', fin'⟩ := trip
          simp only [hrec, Except.ok.injEq, Prod.mk.injEq] at h
          obtain ⟨h1, h2, h3⟩ := h
          subst h1; subst h2
          obtain ⟨ihl, ihs, ihf⟩ := ih (attempt + 1) _ rest succ' fin' hrec
          refine ⟨by simpa using Nat.succ_le_succ ihl, ?_, ?_⟩
          · intro hs
            obtain ⟨pre, last, hsplit, hlast, hpre⟩ := ihs hs
            refine ⟨mkAttempt attempt (oracle attempt).timestamp (oracle attempt).durationMs
              (promptText (scenario1Messages attempt acc)) Parsed.resp
              (AttemptOut.fail raw errs tok) :: pre, last, by simp [hsplit], hlast, ?_⟩
            intro a ha
            rcases List.mem_cons.mp ha with rfl | ha
            · exact mkAttempt_fail_success _ _ _ _ _ _ _ _
            · exact hpre a ha
          · intro hs
            obtain ⟨hlen, hall⟩ := ihf hs
            refine ⟨by simp [hlen], ?_⟩
            intro a ha
            rcases List.mem_cons.mp ha with rfl | ha
            · exact mkAttempt_fail_success _ _ _ _ _ _ _ _
            · exact hall a ha

theorem scenario2Go_sound (oracle : Nat → StrictCall Response) :
    ∀ fuel attempt,
      goodAttempts fuel (scenario2Go oracle fuel attempt).1
        (scenario2Go oracle fuel attempt).2.1 := by
  intro fuel
  induction fuel with
  | zero =>
    intro attempt
    refine ⟨by simp [scenario2Go], ?_, ?_⟩
    · intro hc; exact absurd hc (by simp [scenario2Go])
    · intro _; exact ⟨rfl, by simp [scenario2Go]⟩
  | succ fuel ih =>
    intro attempt
    simp only [scenario2Go]
    cases hout : runStrictAttempt (oracle attempt).outcome with
    | ok v raw i o =>
      refine ⟨by simp, ?_, ?_⟩
      · intro _
        exact ⟨[], _, rfl, rfl, by simp⟩
      · intro hc; exact absurd hc (by simp)
    | fail raw errs tok =>
      obtain ⟨ihl, ihs, ihf⟩ := ih (attempt + 1)
      refine ⟨by simpa using Nat.succ_le_succ ihl, ?_, ?_⟩
      · intro hs
        obtain ⟨pre, last, hsplit, hlast, hpre⟩ := ihs hs
        refine ⟨mkAttempt attempt (oracle attempt).timestamp (oracle attempt).durationMs
          (promptText scenario2BaseMessages) Parsed.resp
          (AttemptOut.fail raw errs tok) :: pre, last, by simp [hsplit], hlast, ?_⟩
        intro a ha
        rcases List.mem_cons.mp ha with rfl | ha
        · exact mkAttempt_fail_success _ _ _ _ _ _ _ _
        · exact hpre a ha
      · intro hs
        obtain ⟨hlen, hall⟩ := ihf hs
        refine ⟨by simp [hlen], ?_⟩
        intro a ha
        rcases List.mem_cons.mp ha with rfl | ha
        · exact mkAttempt_fail_success _ _ _ _ _ _ _ _
        · exact hall a ha

theorem attemptSuccessAt_of_all_fail {r : RunResult}
    (h : ∀ a ∈ r.attempts, a.success = false) (i : Nat) :
    attemptSuccessAt r i = false := by
  unfold attemptSuccessAt
  cases hg : r.attempts.get? i with
  | none => rfl
  | some a => simp [h a (List.get?_mem hg)]

theorem goodAttempts_success_eq {r : RunResult}
    (hg : goodAttempts 4 r.attempts r.success) :
    r.success = (attemptSuccessAt r 0 || tier3P r) := by
  obtain ⟨hlen, hs, hf⟩ := hg
  cases hsucc : r.success with
  | false =>
    obtain ⟨_, hall⟩ := hf hsucc
    simp [tier3P, attemptSuccessAt_of_all_fail hall]
  | true =>
    obtain ⟨pre, last, hsplit, hlast, hpre⟩ := hs hsucc
    have hplen : pre.length ≤ 3 := by
      rw [hsplit] at hlen; simp at hlen; omega
    have hat : attemptSuccessAt r pre.length = true := by
      unfold attemptSuccessAt
      rw [hsplit, List.get?_concat_length]
      simp [hlast]
    have hbefore : ∀ j, j < pre.length → attemptSuccessAt r j = false := by
      intro j hj
      unfold attemptSuccessAt
      rw [hsplit, List.get?_append hj]
      cases hg2 : pre.get? j with
      | none => rfl
      | some a => simp [hpre a (List.get?_mem hg2)]
    have hcases : pre.length = 0 ∨ pre.length = 1 ∨ pre.length = 2 ∨ pre.length = 3 := by
      omega
    rcases hcases with hv | hv | hv | hv
    · rw [hv] at hat; simp [hat]
    · have h0 := hbefore 0 (by omega)
      rw [hv] at hat
      simp [tier3P, hat, h0]
    · have h0 := hbefore 0 (by omega)
      have h1 := hbefore 1 (by omega)
      rw [hv] at hat
      simp [tier3P, hat, h0, h1]
    · have h0 := hbefore 0 (by omega)
      have h1 := hbefore 1 (by omega)
      have h2 := hbefore 2 (by omega)
      rw [hv] at hat
      simp [tier3P, hat, h0, h1, h2]

theorem goodAttempts_tier_imp_success {m : Nat} {r : RunResult}
    (hg : goodAttempts m r.attempts r.success)
    (ht : (attemptSuccessAt r 0 || tier3P r) = true) : r.success = true := by
  obtain ⟨_, _, hf⟩ := hg
  cases hsucc : r.success with
  | true => rfl
  | false =>
    obtain ⟨_, hall⟩ := hf hsucc
    rw [tier3P] at ht
    simp [attemptSuccessAt_of_all_fail hall] at ht

theorem goodAttempts_last {m : Nat} {atts : List AttemptResult} {succ : Bool}
    (hg : goodAttempts m atts succ) :
    succ = ((atts.getLast?.map (·.success)).getD false) := by
  obtain ⟨hlen, hs, hf⟩ := hg
  cases hsucc : succ with
  | true =>
    obtain ⟨pre, last, hsplit, hlast, _⟩ := hs hsucc
    rw [hsplit, List.getLast?_concat]
    simp [hlast]
  | false =>
    obtain ⟨_, hall⟩ := hf hsucc
    cases hatts : atts.getLast? with
    | none => simp
    | some a =>
      have hmem : a ∈ atts.getLast? := by simp [Option.mem_def, hatts]
      obtain ⟨hne2, heq⟩ := List.mem_getLast?_eq_getLast hmem
      have ha : a ∈ atts := by rw [heq]; exact List.getLast_mem hne2
      simp [hall a ha]

theorem seqStage_len {α : Type} (tp : α → Parsed) (oracle : Nat → NonStrictCall α) :
    ∀ fuel attempt msgs, (seqStage tp oracle fuel attempt msgs).1.length ≤ fuel := by
  intro fuel
  induction fuel with
  | zero => intro attempt msgs; simp [seqStage]
  | succ fuel ih =>
    intro attempt msgs
    simp only [seqStage]
    cases hro : runNonStrictAttempt (oracle attempt).outcome with
    | error m => simp
    | ok out =>
      cases out with
      | ok v raw i o => simp
      | fail raw errs tok =>
        have := ih (attempt + 1) (msgs ++ retryContext raw errs)
        simp only [List.length_cons]
        omega

theorem seqStage_length_pos {α : Type} (tp : α → Parsed) (oracle : Nat → NonStrictCall α)
    (fuel attempt : Nat) (msgs : List ChatMessage)
    (hnt : ∀ m, (oracle attempt).outcome ≠ GenTextOutcome.threw m) (hf : 0 < fuel) :
    0 < (seqStage tp oracle fuel attempt msgs).1.length := by
  cases fuel with
  | zero => omega
  | succ fuel =>
    simp only [seqStage]
    cases hro : (oracle attempt).outcome with
    | threw m => exact absurd hro (hnt m)
    | returned raw i o parse =>
      cases parse <;> simp [runNonStrictAttempt]

theorem seqStageStrict_len {α : Type} (tp : α → Parsed) (oracle : Nat → StrictCall α) :
    ∀ fuel attempt msgs, (seqStageStrict tp oracle fuel attempt msgs).1.length ≤ fuel := by
  intro fuel
  induction fuel with
  | zero => intro attempt msgs; simp [seqStageStrict]
  | succ fuel ih =>
    intro attempt msgs
    simp only [seqStageStrict]
    cases hout : runStrictAttempt (oracle attempt).outcome with
    | ok v raw i o => simp
    | fail raw errs tok =>
      have := ih (attempt + 1) msgs
      simp only [List.length_cons]
      omega

theorem scenario3Run_attempts_len (cfg : TestConfig) (o : Scenario3RunOracle)
    (rn rd : Nat) :
    (scenario3Run cfg o rn rd).attempts.length ≤ 3 * (cfg.maxRetries + 1) := by
  have h1 := seqStage_len Parsed.part1 o.s1 (cfg.maxRetries + 1) 1 scenario3Step1Messages
  rcases hseq1 : seqStage Parsed.part1 o.s1 (cfg.maxRetries + 1) 1 scenario3Step1Messages
    with ⟨a1, st1⟩
  rw [hseq1] at h1
  cases st1 with
  | done v1 =>
    have h2 := seqStage_len Parsed.part2 o.s2 (cfg.maxRetries + 1) 1
      (scenario3Step2Messages v1)
    rcases hseq2 : seqStage Parsed.part2 o.s2 (cfg.maxRetries + 1) 1
      (scenario3Step2Messages v1) with ⟨a2, st2⟩
    rw [hseq2] at h2
    cases st2 with
    | done v2 =>
      have h3 := seqStage_len Parsed.part3 o.s3 (cfg.maxRetries + 1) 1
        (scenario3Step3Messages v1 v2)
      rcases hseq3 : seqStage Parsed.part3 o.s3 (cfg.maxRetries + 1) 1
        (scenario3Step3Messages v1 v2) with ⟨a3, st3⟩
      rw [hseq3] at h3
      cases st3 with
      | done v3 =>
        simp only [scenario3Run, hseq1, hseq2, hseq3]
        split <;> simp only [failedRun, List.length_append] <;> simp at h1 h2 h3 <;> omega
      | exhausted =>
        simp only [scenario3Run, hseq1, hseq2, hseq3, failedRun, List.length_append]
        simp at h1 h2 h3; omega
      | threw m =>
        simp only [scenario3Run, hseq1, hseq2, hseq3, failedRun, List.length_append]
        simp at h1 h2 h3; omega
    | exhausted =>
      simp only [scenario3Run, hseq1, hseq2, failedRun, List.length_append]
      simp at h1 h2; omega
    | threw m =>
      simp only [scenario3Run, hseq1, hseq2, failedRun, List.length_append]
      simp at h1 h2; omega
  | exhausted =>
    simp only [scenario3Run, hseq1, failedRun]
    simp at h1; omega
  | threw m =>
    simp only [scenario3Run, hseq1, failedRun]
    simp at h1; omega

theorem scenario4Run_attempts_len (cfg : TestConfig) (o : Scenario4RunOracle)
    (rn rd : Nat) :
    (scenario4Run cfg o rn rd).attempts.length ≤ 3 * (cfg.maxRetries + 1) := by
  have h1 := seqStageStrict_len Parsed.part1 o.s1 (cfg.maxRetries + 1) 1 scenario4Step1Messages
  rcases hseq1 : seqStageStrict Parsed.part1 o.s1 (cfg.maxRetries + 1) 1 scenario4Step1Messages
    with ⟨a1, st1⟩
  rw [hseq1] at h1
  cases st1 with
  | done v1 =>
    have h2 := seqStageStrict_len Parsed.part2 o.s2 (cfg.maxRetries + 1) 1
      (scenario4Step2Messages v1)
    rcases hseq2 : seqStageStrict Parsed.part2 o.s2 (cfg.maxRetries + 1) 1
      (scenario4Step2Messages v1) with ⟨a2, st2⟩
    rw [hseq2] at h2
    cases st2 with
    | done v2 =>
      have h3 := seqStageStrict_len Parsed.part3 o.s3 (cfg.maxRetries + 1) 1
        (scenario4Step3Messages v1 v2)
      rcases hseq3 : seqStageStrict Parsed.part3 o.s3 (cfg.maxRetries + 1) 1
        (scenario4Step3Messages v1 v2) with ⟨a3, st3⟩
      rw [hseq3] at h3
      cases st3 with
      | done v3 =>
        simp only [scenario4Run, hseq1, hseq2, hseq3]
        split <;> simp only [failedRun, List.length_append] <;> simp at h1 h2 h3 <;> omega
      | exhausted =>
        simp only [scenario4Run, hseq1, hseq2, hseq3, failedRun, List.length_append]
        simp at h1 h2 h3; omega
      | threw m =>
        simp only [scenario4Run, hseq1, hseq2, hseq3, failedRun, List.length_append]
        simp at h1 h2 h3; omega
    | exhausted =>
      simp only [scenario4Run, hseq1, hseq2, failedRun, List.length_append]
      simp at h1 h2; omega
    | threw m =>
      simp only [scenario4Run, hseq1, hseq2, failedRun, List.length_append]
      simp at h1 h2; omega
  | exhausted =>
    simp only [scenario4Run, hseq1, failedRun]
    simp at h1; omega
  | threw m =>
    simp only [scenario4Run, hseq1, failedRun]
    simp at h1; omega

theorem scenario1Runs_mem (cfg : TestConfig) (oracle : Nat → Nat → NonStrictCall Response)
    (rd : Nat → Nat) :
    ∀ nums runs, scenario1Runs cfg oracle rd nums = Except.ok runs →
      ∀ r ∈ runs, ∃ rn, scenario1Go (oracle rn) (cfg.maxRetries + 1) 1 [] =
        Except.ok (r.attempts, r.success, r.finalResponse) := by
  intro nums
  induction nums with
  | nil =>
    intro runs h r hr
    simp only [scenario1Runs, Except.ok.injEq] at h
    subst h
    exact absurd hr (by simp)
  | cons n rest ih =>
    intro runs h r hr
    simp only [scenario1Runs] at h
    cases hgo : scenario1Go (oracle n) (cfg.maxRetries + 1) 1 [] with
    | error m =>
      simp only [hgo] at h
      exact Except.noConfusion h
    | ok trip =>
      obtain ⟨atts, succ, fin⟩ := trip
      simp only [hgo] at h
      cases hrest : scenario1Runs cfg oracle rd rest with
      | error m =>
        simp only [hrest] at h
        exact Except.noConfusion h
      | ok runs' =>
        simp only [hrest, Except.ok.injEq] at h
        subst h
        rcases List.mem_cons.mp hr with rfl | hr
        · exact ⟨n, hgo⟩
        · exact ih runs' hrest r hr

theorem runScenario1_mem (cfg : TestConfig) (oracle : Nat → Nat → NonStrictCall Response)
    (rd : Nat → Nat) (runs : List RunResult)
    (h : runScenario1 cfg oracle rd = Except.ok runs) :
    ∀ r ∈ runs, ∃ rn, scenario1Go (oracle rn) (cfg.maxRetries + 1) 1 [] =
      Except.ok (r.attempts, r.success, r.finalResponse) :=
  scenario1Runs_mem cfg oracle rd _ runs h

theorem runScenario2_mem (cfg : TestConfig) (oracle : Nat → Nat → StrictCall Response)
    (rd : Nat → Nat) :
    ∀ r ∈ runScenario2 cfg oracle rd, ∃ rn,
      r.attempts = (scenario2Go (oracle rn) (cfg.maxRetries + 1) 1).1 ∧
      r.success = (scenario2Go (oracle rn) (cfg.maxRetries + 1) 1).2.1 := by
  intro r hr
  simp only [runScenario2, List.mem_map] at hr
  obtain ⟨rn, _, heq⟩ := hr
  exact ⟨rn, by rw [← heq], by rw [← heq]⟩

theorem scenario1Messages_retry (attempt : Nat) (hat : 1 ≤ attempt)
    (acc : List AttemptResult) (ar : AttemptResult) :
    scenario1Messages (attempt + 1) (acc ++ [ar]) =
      scenario1BaseMessages ++ retryContext ar.rawResponse ar.validationErrors := by
  have hc : attempt + 1 > 1 ∧ (acc ++ [ar]).length > 0 := ⟨by omega, by simp⟩
  simp only [scenario1Messages, if_pos hc, List.getLast?_concat]

theorem scenario1Go_prompts (oracle : Nat → NonStrictCall Response) :
    ∀ fuel attempt acc atts succ fin,
      1 ≤ attempt →
      scenario1Go oracle fuel attempt acc = Except.ok (atts, succ, fin) →
      (∀ a0, atts.get? 0 = some a0 →
        a0.prompt = promptText (scenario1Messages attempt acc)) ∧
      (∀ i prev a, atts.get? i = some prev → atts.get? (i + 1) = some a →
        a.prompt = promptText (scenario1BaseMessages ++
          retryContext prev.rawResponse prev.validationErrors)) := by
  intro fuel
  induction fuel with
  | zero =>
    intro attempt acc atts succ fin hat h
    simp only [scenario1Go, Except.ok.injEq, Prod.mk.injEq] at h
    obtain ⟨h1, h2, h3⟩ := h
    subst h1
    exact ⟨fun a0 h0 => by simp at h0, fun i prev a hp ha => by simp at hp⟩
  | succ fuel ih =>
    intro attempt acc atts succ fin hat h
    simp only [scenario1Go] at h
    cases hro : runNonStrictAttempt (oracle attempt).outcome with
    | error m => simp only [hro] at h; exact Except.noConfusion h
    | ok out =>
      cases out with
      | ok v raw i o =>
        simp only [hro, Except.ok.injEq, Prod.mk.injEq] at h
        obtain ⟨h1, h2, h3⟩ := h
        subst h1
        constructor
        · intro a0 h0
          simp only [List.get?_cons_zero, Option.some.injEq] at h0
          rw [← h0]
          rfl
        · intro i prev a hp ha
          cases i <;> simp at ha
      | fail raw errs tok =>
        simp only [hro] at h
        cases hrec : scenario1Go oracle fuel (attempt + 1)
            (acc ++ [mkAttempt attempt (oracle attempt).timestamp
              (oracle attempt).durationMs
              (promptText (scenario1Messages attempt acc)) Parsed.resp
              (AttemptOut.fail raw errs tok)]) with
        | error m => simp only [hrec] at h; exact Except.noConfusion h
        | ok trip =>
          obtain ⟨rest, succ', fin'⟩ := trip
          simp only [hrec, Except.ok.injEq, Prod.mk.injEq] at h
          obtain ⟨h1, h2, h3⟩ := h
          subst h1
          obtain ⟨ih0, ihp⟩ := ih (attempt + 1) _ rest succ' fin' (by omega) hrec
          constructor
          · intro a0 h0
            simp only [List.get?_cons_zero, Option.some.injEq] at h0
            rw [← h0]
            rfl
          · intro i prev a hp ha
            cases i with
            | zero =>
              simp only [List.get?_cons_zero, Option.some.injEq] at hp
              have ha' : rest.get? 0 = some a := by simpa using ha
              rw [ih0 a ha', ← hp]
              rw [scenario1Messages_retry attempt hat]
            | succ i =>
              have hp' : rest.get? i = some prev := by simpa using hp
              have ha' : rest.get? (i + 1) = some a := by simpa using ha
              exact ihp i prev a hp' ha'

theorem seqStage_prompts {α : Type} (tp : α → Parsed) (oracle : Nat → NonStrictCall α) :
    ∀ fuel attempt msgs atts st,
      seqStage tp oracle fuel attempt msgs = (atts, st) →
      ∀ i a, atts.get? i = some a →
        a.prompt = promptText (msgs ++
          ((atts.take i).map
            (fun p => retryContext p.rawResponse p.validationErrors)).flatten) := by
  intro fuel
  induction fuel with
  | zero =>
    intro attempt msgs atts st h i a ha
    simp only [seqStage, Prod.mk.injEq] at h
    obtain ⟨h1, h2⟩ := h
    subst h1
    simp at ha
  | succ fuel ih =>
    intro attempt msgs atts st h i a ha
    simp only [seqStage] at h
    cases hro : runNonStrictAttempt (oracle attempt).outcome with
    | error m =>
      simp only [hro, Prod.mk.injEq] at h
      obtain ⟨h1, h2⟩ := h
      subst h1
      simp at ha
    | ok out =>
      cases out with
      | ok v raw it ot =>
        simp only [hro, Prod.mk.injEq] at h
        obtain ⟨h1, h2⟩ := h
        subst h1
        cases i with
        | zero =>
          simp only [List.get?_cons_zero, Option.some.injEq] at ha
          rw [← ha]
          simp only [List.take_zero, List.map_nil, List.flatten_nil, List.append_nil]
          rfl
        | succ i => simp at ha
      | fail raw errs tok =>
        simp only [hro, Prod.mk.injEq] at h
        obtain ⟨h1, h2⟩ := h
        subst h1
        cases i with
        | zero =>
          simp only [List.get?_cons_zero, Option.some.injEq] at ha
          rw [← ha]
          simp only [List.take_zero, List.map_nil, List.flatten_nil, List.append_nil]
          rfl
        | succ i =>
          have ha' : (seqStage tp oracle fuel (attempt + 1)
              (msgs ++ retryContext raw errs)).1.get? i = some a := by
            simpa using ha
          rw [ih (attempt + 1) (msgs ++ retryContext raw errs) _ _ rfl i a ha']
          congr 1
          simp only [List.take_succ_cons, List.map_cons, List.flatten_cons,
            List.append_assoc, mkAttempt]

theorem scenario2Go_allfail (oracle : Nat → StrictCall Response) (m : String)
    (hm : ∀ k, (oracle k).outcome = GenObjectOutcome.otherError m) :
    ∀ fuel attempt,
      (scenario2Go oracle fuel attempt).1.length = fuel ∧
      (scenario2Go oracle fuel attempt).2.1 = false ∧
      ∀ a ∈ (scenario2Go oracle fuel attempt).1,
        a.success = false ∧ a.errorMessage = none ∧
          a.validationErrors = [{ path := [], message := m, code := "api_error" }] := by
  intro fuel
  induction fuel with
  | zero => intro attempt; exact ⟨rfl, rfl, by simp [scenario2Go]⟩
  | succ fuel ih =>
    intro attempt
    obtain ⟨ihl, ihs, ihall⟩ := ih (attempt + 1)
    simp only [scenario2Go, hm attempt, runStrictAttempt]
    refine ⟨by simp [ihl], by simpa using ihs, ?_⟩
    intro a ha
    rcases List.mem_cons.mp ha with rfl | ha
    · exact ⟨rfl, rfl, rfl⟩
    · exact ihall a ha

theorem scenario2Go_prompt (oracle : Nat → StrictCall Response) :
    ∀ fuel attempt, ∀ a ∈ (scenario2Go oracle fuel attempt).1,
      a.prompt = promptText scenario2BaseMessages := by
  intro fuel
  induction fuel with
  | zero => intro attempt a ha; simp [scenario2Go] at ha
  | succ fuel ih =>
    intro attempt a ha
    simp only [scenario2Go] at ha
    cases hout : runStrictAttempt (oracle attempt).outcome with
    | ok v raw i o =>
      rw [hout] at ha
      simp only [List.mem_singleton] at ha
      rw [ha]
      rfl
    | fail raw errs tok =>
      rw [hout] at ha
      rcases List.mem_cons.mp ha with rfl | ha
      · rfl
      · exact ih (attempt + 1) a ha

theorem runScenario1_throw (cfg : TestConfig) (oracle : Nat → Nat → NonStrictCall Response)
    (rd : Nat → Nat) (m : String) (hn : 0 < cfg.runsPerScenario)
    (h1 : (oracle 1 1).outcome = GenTextOutcome.threw m) :
    runScenario1 cfg oracle rd = Except.error m := by
  unfold runScenario1
  obtain ⟨k, hk⟩ : ∃ k, cfg.runsPerScenario = k + 1 := ⟨cfg.runsPerScenario - 1, by omega⟩
  rw [hk, List.range_succ_eq_map]
  simp only [List.map_cons, Nat.zero_add]
  have hgo : scenario1Go (oracle 1) (cfg.maxRetries + 1) 1 [] = Except.error m := by
    simp only [scenario1Go]
    simp [runNonStrictAttempt, h1]
  simp [scenario1Runs, hgo]

theorem tier1P_imp_tier2P (r : RunResult) (h : tier1P r = true) : tier2P r = true := by
  unfold tier1P at h
  unfold tier2P
  simp only [Bool.and_eq_true] at h ⊢
  exact ⟨h.1, by simp [h.2]⟩

theorem tier2P_imp_tier3P (r : RunResult) (h : tier2P r = true) : tier3P r = true := by
  unfold tier2P at h
  unfold tier3P
  simp only [Bool.and_eq_true, Bool.or_eq_true] at h ⊢
  obtain ⟨h0, h1⟩ := h
  exact ⟨h0, by tauto⟩

theorem first_tier3_not_both (r : RunResult) :
    ¬(attemptSuccessAt r 0 = true ∧ tier3P r = true) := by
  rintro ⟨h0, ht⟩
  unfold tier3P at ht
  simp [h0] at ht

theorem summary_chain (runs : List RunResult) :
    0 ≤ (calculateScenarioSummary runs).firstAttemptSuccessRate ∧
    (calculateScenarioSummary runs).firstAttemptSuccessRate ≤
      (calculateScenarioSummary runs).afterRetry1SuccessRate ∧
    (calculateScenarioSummary runs).afterRetry1SuccessRate ≤
      (calculateScenarioSummary runs).afterRetry2SuccessRate ∧
    (calculateScenarioSummary runs).afterRetry2SuccessRate ≤
      (calculateScenarioSummary runs).afterRetry3SuccessRate := by
  by_cases hn : runs.length = 0
  · unfold calculateScenarioSummary
    rw [if_pos hn]
    norm_num
  · rw [summary_fields runs hn]
    simp only [foldl_summaryStep_eq]
    refine ⟨rate_nonneg _ _, ?_, ?_, ?_⟩
    · exact rate_mono _ (Nat.le_add_right _ _)
    · exact rate_mono _ (Nat.add_le_add_left
        (filter_length_mono runs (fun r _ => tier1P_imp_tier2P r)) _)
    · exact rate_mono _ (Nat.add_le_add_left
        (filter_length_mono runs (fun r _ => tier2P_imp_tier3P r)) _)

theorem summary_success_tiers (runs : List RunResult) (m : Nat)
    (hgood : ∀ r ∈ runs, goodAttempts m r.attempts r.success) :
    (calculateScenarioSummary runs).afterRetry3SuccessRate ≤
      (calculateScenarioSummary runs).successRate ∧
    (m = 4 → (calculateScenarioSummary runs).successRate =
      (calculateScenarioSummary runs).afterRetry3SuccessRate) := by
  by_cases hn : runs.length = 0
  · unfold calculateScenarioSummary
    rw [if_pos hn]
    exact ⟨le_refl 0, fun _ => rfl⟩
  · rw [summary_fields runs hn]
    simp only [foldl_summaryStep_eq]
    constructor
    · apply rate_mono
      rw [← filter_or_disjoint (fun r => attemptSuccessAt r 0) tier3P
        first_tier3_not_both runs]
      apply filter_length_mono
      intro r hr ht
      exact goodAttempts_tier_imp_success (hgood r hr) ht
    · intro hm
      subst hm
      have hcong : runs.filter (·.success) =
          runs.filter (fun r => attemptSuccessAt r 0 || tier3P r) :=
        List.filter_congr (fun r hr => goodAttempts_success_eq (hgood r hr))
      rw [hcong, filter_or_disjoint (fun r => attemptSuccessAt r 0) tier3P
        first_tier3_not_both runs]

theorem runTokens_eq_sum (r : RunResult) :
    runTokens r = (r.attempts.map
      (fun a => a.inputTokens.getD 0 + a.outputTokens.getD 0)).sum := by
  unfold runTokens
  have key : ∀ (l : List AttemptResult) (n : Nat),
      l.foldl (fun aSum a => aSum + a.inputTokens.getD 0 + a.outputTokens.getD 0) n =
        n + (l.map (fun a => a.inputTokens.getD 0 + a.outputTokens.getD 0)).sum := by
    intro l
    induction l with
    | nil => intro n; simp
    | cons x xs ih => intro n; simp [ih]; omega
  simpa using key r.attempts 0

/-- C9: `calculateScenarioSummary` applied to the empty run list returns a
summary whose every rate, every average and the token total are exactly 0 —
no division is attempted, so nothing is undefined. -/
theorem C9_theorem : calculateScenarioSummary [] =
    { successRate := 0, firstAttemptSuccessRate := 0, afterRetry1SuccessRate := 0
      afterRetry2SuccessRate := 0, afterRetry3SuccessRate := 0
      averageDurationMs := 0, averageAttempts := 0, totalTokensUsed := 0 } := rfl

/-- C8: `mergeSequentialParts` on the spec's example stage outputs returns
exactly the merged response with the nested `create_actor` action — pure
field-by-field assignment. -/
theorem C8_theorem :
    mergeSequentialParts
      { recommendation := "R", action := some "create_actor" }
      { title := "DBA", reason := "needs db help, long enough text"
        skills := ["PostgreSQL", "Indexing", "Tuning"] }
      { prompt := "You are a DBA expert with enough characters"
        model := ModelType.reasoning } =
    { recommendation := "R"
      action := some
        { type := "create_actor"
          actor := { title := "DBA", reason := "needs db help, long enough text"
                     skills := ["PostgreSQL", "Indexing", "Tuning"]
                     prompt := "You are a DBA expert with enough characters"
                     model := ModelType.reasoning } } } := rfl

/-- C5: the cumulative retry-tier rates follow the spec's algorithm —
`afterTier[k]` is the first-attempt-success count plus the count of runs
rescued at a tier ≤ k (each run counted once, at the first succeeding
attempt) — and on the concrete 3-run example the rates are `200/3 %`,
`100/3 %` and `200/3 %` (the spec displays them rounded as 66.7 / 33.3). -/
theorem C5_theorem :
    (∀ runs : List RunResult, runs ≠ [] →
      (calculateScenarioSummary runs).firstAttemptSuccessRate =
        ((runs.filter (fun r => attemptSuccessAt r 0)).length : ℚ) /
          (runs.length : ℚ) * 100 ∧
      (calculateScenarioSummary runs).afterRetry1SuccessRate =
        (((runs.filter (fun r => attemptSuccessAt r 0)).length +
          (runs.filter tier1P).length : ℕ) : ℚ) / (runs.length : ℚ) * 100 ∧
      (calculateScenarioSummary runs).afterRetry2SuccessRate =
        (((runs.filter (fun r => attemptSuccessAt r 0)).length +
          (runs.filter tier2P).length : ℕ) : ℚ) / (runs.length : ℚ) * 100 ∧
      (calculateScenarioSummary runs).afterRetry3SuccessRate =
        (((runs.filter (fun r => attemptSuccessAt r 0)).length +
          (runs.filter tier3P).length : ℕ) : ℚ) / (runs.length : ℚ) * 100 ∧
      (calculateScenarioSummary runs).successRate =
        ((runs.filter (·.success)).length : ℚ) / (runs.length : ℚ) * 100) ∧
    ((calculateScenarioSummary exRuns).successRate = 200 / 3 ∧
      (calculateScenarioSummary exRuns).firstAttemptSuccessRate = 100 / 3 ∧
      (calculateScenarioSummary exRuns).afterRetry1SuccessRate = 200 / 3 ∧
      (calculateScenarioSummary exRuns).afterRetry2SuccessRate = 200 / 3 ∧
      (calculateScenarioSummary exRuns).afterRetry3SuccessRate = 200 / 3) := by
  constructor
  · intro runs hne
    have hn : ¬ runs.length = 0 := by
      intro h0
      exact hne (List.length_eq_zero.mp h0)
    rw [summary_fields runs hn]
    simp only [foldl_summaryStep_eq]
    refine ⟨?_, ?_, ?_, ?_, ?_⟩ <;> norm_num
  · rw [summary_fields exRuns (by decide)]
    have h1 : (exRuns.filter (·.success)).length = 2 := rfl
    have h2 : (exRuns.filter (fun r => attemptSuccessAt r 0)).length = 1 := rfl
    have h3 : exRuns.length = 3 := rfl
    have h4 : exRuns.foldl summaryStep
        ((exRuns.filter (fun r => attemptSuccessAt r 0)).length,
          (exRuns.filter (fun r => attemptSuccessAt r 0)).length,
          (exRuns.filter (fun r => attemptSuccessAt r 0)).length) = (2, 2, 2) := rfl
    simp only [h2] at h4
    simp only [h1, h2, h3, h4]
    norm_num

/-- Witness for C5: the general tier formula instantiated on the concrete
3-run example. -/
theorem C5_witness :
    (calculateScenarioSummary exRuns).afterRetry1SuccessRate =
      (((exRuns.filter (fun r => attemptSuccessAt r 0)).length +
        (exRuns.filter tier1P).length : ℕ) : ℚ) / (exRuns.length : ℚ) * 100 :=
  (C5_theorem.1 exRuns (by decide)).2.1

/-- C7: `totalTokensUsed` is the sum over every attempt of every run —
including failed attempts — of the input tokens (0 when absent) plus the
output tokens (0 when absent). -/
theorem C7_theorem (runs : List RunResult) (h : runs ≠ []) :
    (calculateScenarioSummary runs).totalTokensUsed =
      (runs.map (fun r => (r.attempts.map
        (fun a => a.inputTokens.getD 0 + a.outputTokens.getD 0)).sum)).sum := by
  have hn : ¬ runs.length = 0 := by
    intro h0
    exact h (List.length_eq_zero.mp h0)
  rw [summary_fields runs hn]
  show runs.foldl (fun sum r => sum + runTokens r) 0 = _
  rw [foldl_add_eq_sum runTokens runs 0]
  have hfn : runTokens = fun r : RunResult =>
      (r.attempts.map (fun a => a.inputTokens.getD 0 + a.outputTokens.getD 0)).sum :=
    funext runTokens_eq_sum
  rw [Nat.zero_add, hfn]

/-- Witness for C7: the token formula on a concrete two-run list with
partial usage data and failed attempts. -/
theorem C7_witness :
    exTokRuns ≠ [] ∧
    (calculateScenarioSummary exTokRuns).totalTokensUsed =
      (exTokRuns.map (fun r => (r.attempts.map
        (fun a => a.inputTokens.getD 0 + a.outputTokens.getD 0)).sum)).sum :=
  ⟨by decide, C7_theorem exTokRuns (by decide)⟩

/-- C1 counterexample: a three-stage run whose stage 1 succeeds on its first
attempt but whose stage 2 exhausts the budget yields
`afterRetry3SuccessRate = 100` yet `successRate = 0`, refuting
`afterRetry3SuccessRate ≤ successRate` (and the equality at the last tier)
for engine-produced runs. -/
theorem C1_counterexample :
    (calculateScenarioSummary runsC1ce).afterRetry3SuccessRate = 100 ∧
    (calculateScenarioSummary runsC1ce).successRate = 0 ∧
    ¬ ((calculateScenarioSummary runsC1ce).afterRetry3SuccessRate ≤
        (calculateScenarioSummary runsC1ce).successRate) := by
  rw [summary_fields runsC1ce (by decide)]
  have h1 : (runsC1ce.filter (·.success)).length = 0 := rfl
  have h3 : runsC1ce.length = 1 := rfl
  have h4 : runsC1ce.foldl summaryStep
      ((runsC1ce.filter (fun r => attemptSuccessAt r 0)).length,
        (runsC1ce.filter (fun r => attemptSuccessAt r 0)).length,
        (runsC1ce.filter (fun r => attemptSuccessAt r 0)).length) = (1, 1, 1) := rfl
  simp only [h1, h3, h4]
  norm_num

/-- C1 (amended): the chain
`0 ≤ firstAttemptSuccessRate ≤ afterRetry1 ≤ afterRetry2 ≤ afterRetry3`
holds for every run list, and for the one-stage executors (scenarios 1 and
2) additionally `afterRetry3SuccessRate ≤ successRate`, with equality when
`maxRetries = 3`; for three-stage runs the last two links can fail (see the
counterexample). -/
theorem C1_amended :
    (∀ runs : List RunResult,
      0 ≤ (calculateScenarioSummary runs).firstAttemptSuccessRate ∧
      (calculateScenarioSummary runs).firstAttemptSuccessRate ≤
        (calculateScenarioSummary runs).afterRetry1SuccessRate ∧
      (calculateScenarioSummary runs).afterRetry1SuccessRate ≤
        (calculateScenarioSummary runs).afterRetry2SuccessRate ∧
      (calculateScenarioSummary runs).afterRetry2SuccessRate ≤
        (calculateScenarioSummary runs).afterRetry3SuccessRate) ∧
    (∀ cfg oracle rd runs, runScenario1 cfg oracle rd = Except.ok runs →
      (calculateScenarioSummary runs).afterRetry3SuccessRate ≤
        (calculateScenarioSummary runs).successRate ∧
      (cfg.maxRetries = 3 →
        (calculateScenarioSummary runs).successRate =
          (calculateScenarioSummary runs).afterRetry3SuccessRate)) ∧
    (∀ cfg oracle rd,
      (calculateScenarioSummary (runScenario2 cfg oracle rd)).afterRetry3SuccessRate ≤
        (calculateScenarioSummary (runScenario2 cfg oracle rd)).successRate ∧
      (cfg.maxRetries = 3 →
        (calculateScenarioSummary (runScenario2 cfg oracle rd)).successRate =
          (calculateScenarioSummary (runScenario2 cfg oracle rd)).afterRetry3SuccessRate)) := by
  refine ⟨summary_chain, ?_, ?_⟩
  · intro cfg oracle rd runs h
    have hgood : ∀ r ∈ runs, goodAttempts (cfg.maxRetries + 1) r.attempts r.success := by
      intro r hr
      obtain ⟨rn, hgo⟩ := runScenario1_mem cfg oracle rd runs h r hr
      exact scenario1Go_sound (oracle rn) (cfg.maxRetries + 1) 1 [] _ _ _ hgo
    have hst := summary_success_tiers runs (cfg.maxRetries + 1) hgood
    exact ⟨hst.1, fun hm => hst.2 (by omega)⟩
  · intro cfg oracle rd
    have hgood : ∀ r ∈ runScenario2 cfg oracle rd,
        goodAttempts (cfg.maxRetries + 1) r.attempts r.success := by
      intro r hr
      obtain ⟨rn, hatt, hsucc⟩ := runScenario2_mem cfg oracle rd r hr
      rw [hatt, hsucc]
      exact scenario2Go_sound (oracle rn) (cfg.maxRetries + 1) 1
    have hst := summary_success_tiers (runScenario2 cfg oracle rd)
      (cfg.maxRetries + 1) hgood
    exact ⟨hst.1, fun hm => hst.2 (by omega)⟩

/-- Witness for C1 (amended): the chain on the concrete 3-run example, and
the last-tier equality on a concrete scenario-1 execution with the default
`maxRetries = 3`. -/
theorem C1_amended_witness :
    (0 ≤ (calculateScenarioSummary exRuns).firstAttemptSuccessRate) ∧
    ((calculateScenarioSummary runsC10).successRate =
      (calculateScenarioSummary runsC10).afterRetry3SuccessRate) :=
  ⟨(C1_amended.1 exRuns).1,
    (C1_amended.2.1 cfgOneRun oracleC10 (fun _ => 0) runsC10 rfl).2 rfl⟩

/-- C2 counterexample: a three-stage run (stages 1 and 2 rescued on their
second attempt, stage 3 immediate) stores 5 attempts in its single attempts
array while `maxRetries + 1 = 4`, refuting the claimed bound for the
three-stage executors. -/
theorem C2_counterexample :
    runsC2ce.map (fun r => r.attempts.length) = [5] ∧
    cfgOneRun.maxRetries + 1 = 4 ∧ ¬ (5 ≤ 4) :=
  ⟨rfl, rfl, by decide⟩

/-- C2 (amended): for the one-stage executors every run has at most
`maxRetries + 1` attempts and, at the full budget, the run's success flag
equals the last attempt's flag; the three-stage executors guarantee only
`3 * (maxRetries + 1)` for the concatenated attempts array. -/
theorem C2_amended :
    (∀ cfg oracle rd runs, runScenario1 cfg oracle rd = Except.ok runs →
      ∀ r ∈ runs, r.attempts.length ≤ cfg.maxRetries + 1 ∧
        (r.attempts.length = cfg.maxRetries + 1 →
          r.success = ((r.attempts.getLast?.map (·.success)).getD false))) ∧
    (∀ cfg oracle rd, ∀ r ∈ runScenario2 cfg oracle rd,
      r.attempts.length ≤ cfg.maxRetries + 1 ∧
        (r.attempts.length = cfg.maxRetries + 1 →
          r.success = ((r.attempts.getLast?.map (·.success)).getD false))) ∧
    (∀ cfg oracle rd, ∀ r ∈ runScenario3 cfg oracle rd,
      r.attempts.length ≤ 3 * (cfg.maxRetries + 1)) ∧
    (∀ cfg oracle rd, ∀ r ∈ runScenario4 cfg oracle rd,
      r.attempts.length ≤ 3 * (cfg.maxRetries + 1)) := by
  refine ⟨?_, ?_, ?_, ?_⟩
  · intro cfg oracle rd runs h r hr
    obtain ⟨rn, hgo⟩ := runScenario1_mem cfg oracle rd runs h r hr
    have hg := scenario1Go_sound (oracle rn) (cfg.maxRetries + 1) 1 [] _ _ _ hgo
    exact ⟨hg.1, fun _ => goodAttempts_last hg⟩
  · intro cfg oracle rd r hr
    obtain ⟨rn, hatt, hsucc⟩ := runScenario2_mem cfg oracle rd r hr
    have hg := scenario2Go_sound (oracle rn) (cfg.maxRetries + 1) 1
    rw [← hatt, ← hsucc] at hg
    exact ⟨hg.1, fun _ => goodAttempts_last hg⟩
  · intro cfg oracle rd r hr
    simp only [runScenario3, List.mem_map] at hr
    obtain ⟨rn, _, heq⟩ := hr
    rw [← heq]
    exact scenario3Run_attempts_len cfg (oracle rn) rn (rd rn)
  · intro cfg oracle rd r hr
    simp only [runScenario4, List.mem_map] at hr
    obtain ⟨rn, _, heq⟩ := hr
    rw [← heq]
    exact scenario4Run_attempts_len cfg (oracle rn) rn (rd rn)

/-- Witness for C2 (amended): a concrete scenario-1 run that exhausts the
budget satisfies the bound and the last-attempt rule. -/
theorem C2_amended_witness :
    runC2wRun.attempts.length ≤ cfgOneRun.maxRetries + 1 ∧
    (runC2wRun.attempts.length = cfgOneRun.maxRetries + 1 →
      runC2wRun.success = ((runC2wRun.attempts.getLast?.map (·.success)).getD false)) :=
  C2_amended.1 cfgOneRun oracleAllFailText (fun _ => 0) runsC2w rfl runC2wRun
    (List.get?_mem (show runsC2w.get? 0 = some runC2wRun from rfl))

/-- C3 counterexample: with stage 1 validating `action: null` on its first
attempt and stages 2 and 3 validating immediately, the run records 3
attempts — stages 2 and 3 were invoked and their attempts appended — while
the claim requires the run to stop after the single stage-1 attempt.  The
merged object's `action` is indeed `null`. -/
theorem C3_counterexample :
    runsC3ce.map (fun r => r.attempts.length) = [3] ∧
    ((runsC3ce.get? 0).getD defaultRun).finalResponse = some
      { recommendation := "I think you need to hire a database administrator"
        action := none } ∧
    ((runsC3ce.get? 0).getD defaultRun).success = true :=
  ⟨rfl, rfl, rfl⟩

/-- C3 (amended): when stage 1 validates with `action: null`, the engine
still proceeds — unless the first stage-2 call throws at the transport
level, at least one stage-2 attempt is appended after stage 1's — and any
merged final object has `action = null`. -/
theorem C3_amended (cfg : TestConfig) (o : Scenario3RunOracle) (rn rd : Nat)
    (a1 : List AttemptResult) (v1 : SequentialPart1)
    (h1 : seqStage Parsed.part1 o.s1 (cfg.maxRetries + 1) 1 scenario3Step1Messages
      = (a1, StageOut.done v1))
    (hnull : v1.action = none)
    (hs2 : ∀ m, (o.s2 1).outcome ≠ GenTextOutcome.threw m) :
    a1.length < (scenario3Run cfg o rn rd).attempts.length ∧
    ∀ resp, (scenario3Run cfg o rn rd).finalResponse = some resp →
      resp.action = none := by
  have hpos := seqStage_length_pos Parsed.part2 o.s2 (cfg.maxRetries + 1) 1
    (scenario3Step2Messages v1) hs2 (by omega)
  rcases hseq2 : seqStage Parsed.part2 o.s2 (cfg.maxRetries + 1) 1
    (scenario3Step2Messages v1) with ⟨a2, st2⟩
  rw [hseq2] at hpos
  simp at hpos
  cases st2 with
  | done v2 =>
    rcases hseq3 : seqStage Parsed.part3 o.s3 (cfg.maxRetries + 1) 1
      (scenario3Step3Messages v1 v2) with ⟨a3, st3⟩
    cases st3 with
    | done v3 =>
      simp only [scenario3Run, h1, hseq2, hseq3]
      split
      · constructor
        · simp
          omega
        · intro resp hresp
          simp only [Option.some.injEq] at hresp
          rw [← hresp]
          simp [mergeSequentialParts, hnull]
      · constructor
        · simp [failedRun]
          omega
        · intro resp hresp
          simp [failedRun] at hresp
    | exhausted =>
      simp only [scenario3Run, h1, hseq2, hseq3]
      constructor
      · simp [failedRun]
        omega
      · intro resp hresp
        simp [failedRun] at hresp
    | threw m =>
      simp only [scenario3Run, h1, hseq2, hseq3]
      constructor
      · simp [failedRun]
        omega
      · intro resp hresp
        simp [failedRun] at hresp
  | exhausted =>
    simp only [scenario3Run, h1, hseq2]
    constructor
    · simp [failedRun]
      omega
    · intro resp hresp
      simp [failedRun] at hresp
  | threw m =>
    simp only [scenario3Run, h1, hseq2]
    constructor
    · simp [failedRun]
      omega
    · intro resp hresp
      simp [failedRun] at hresp

/-- Witness for C3 (amended): the null-action oracle run appends stage-2 and
stage-3 attempts and merges to a null action. -/
theorem C3_witness :
    a1C3.length < (scenario3Run cfgOneRun (oracleC3ce 1) 1 0).attempts.length ∧
    ∀ resp, (scenario3Run cfgOneRun (oracleC3ce 1) 1 0).finalResponse = some resp →
      resp.action = none :=
  C3_amended cfgOneRun (oracleC3ce 1) 1 0 a1C3 exPart1Null rfl rfl
    (fun m h => by simp [oracleC3ce, okTextCall] at h)

/-- C4 counterexample: in guided (non-strict) mode a transport-level throw
is not caught — the whole scenario-1 executor rejects with the error, so no
failed Attempt with `errorMessage` is recorded and the failure escapes the
Run. -/
theorem C4_counterexample :
    runScenario1 cfgOneRun oracleC4ce (fun _ => 0) =
      Except.error "network failure" := rfl

/-- C4 (amended): in strict mode a non-validation failure is absorbed as a
failed Attempt whose `validationErrors` holds the single `api_error` entry
with the message while `errorMessage` stays null, and the retry loop runs to
the full budget without anything escaping; in guided mode the throw
propagates out of the run and aborts the scenario-1 executor. -/
theorem C4_amended :
    (∀ m : String, runStrictAttempt (α := Response) (GenObjectOutcome.otherError m) =
      AttemptOut.fail "" [{ path := [], message := m, code := "api_error" }] none) ∧
    (∀ cfg oracle rd (m : String),
      (∀ rn k, (oracle rn k).outcome = GenObjectOutcome.otherError m) →
      ∀ r ∈ runScenario2 cfg oracle rd,
        r.success = false ∧ r.attempts.length = cfg.maxRetries + 1 ∧
        ∀ a ∈ r.attempts, a.success = false ∧ a.errorMessage = none ∧
          a.validationErrors = [{ path := [], message := m, code := "api_error" }]) ∧
    (∀ cfg oracle rd (m : String), 0 < cfg.runsPerScenario →
      (oracle 1 1).outcome = GenTextOutcome.threw m →
      runScenario1 cfg oracle rd = Except.error m) := by
  refine ⟨fun m => rfl, ?_, ?_⟩
  · intro cfg oracle rd m hm r hr
    obtain ⟨rn, hatt, hsucc⟩ := runScenario2_mem cfg oracle rd r hr
    obtain ⟨hl, hs, hall⟩ := scenario2Go_allfail (oracle rn) m (fun k => hm rn k)
      (cfg.maxRetries + 1) 1
    refine ⟨by rw [hsucc]; exact hs, by rw [hatt]; exact hl, ?_⟩
    rw [hatt]
    exact hall
  · intro cfg oracle rd m hn h1
    exact runScenario1_throw cfg oracle rd m hn h1

/-- Witness for C4 (amended): the strict attempt on a concrete transport
error, and a concrete scenario-2 run under the all-failure oracle. -/
theorem C4_amended_witness :
    runStrictAttempt (α := Response) (GenObjectOutcome.otherError "network failure") =
      AttemptOut.fail ""
        [{ path := [], message := "network failure", code := "api_error" }] none ∧
    runC4wRun.success = false ∧
    runC4wRun.attempts.length = cfgOneRun.maxRetries + 1 := by
  have h := C4_amended.2.1 cfgOneRun oracleC4w (fun _ => 0) "network failure"
    (fun _ _ => rfl) runC4wRun
    (List.get?_mem (show runsC4w.get? 0 = some runC4wRun from rfl))
  exact ⟨C4_amended.1 "network failure", h.1, h.2.1⟩

/-- C6 (code bug): in scenario 2 (strict one-shot), a run whose first
attempt fails validation retries with the identical three base messages —
every attempt's logged prompt equals `promptText scenario2BaseMessages`, so
no corrective message carrying the previous raw response and the error
paths/messages is ever sent, contradicting the repository's own
`TEST_SCENARIOS.md` retry protocol. -/
theorem C6_theorem :
    runC6Run.attempts.length = 2 ∧
    (runC6Run.attempts.get? 0).map (·.success) = some false ∧
    (runC6Run.attempts.get? 1).map (·.success) = some true ∧
    ∀ a ∈ runC6Run.attempts, a.prompt = promptText scenario2BaseMessages := by
  refine ⟨rfl, rfl, rfl, ?_⟩
  intro a ha
  exact scenario2Go_prompt (oracleC6 1) (cfgOneRun.maxRetries + 1) 1 a ha

/-- C10: in scenario 1 the message list of attempt 1 is exactly the three
base messages and the message list of attempt `k + 1` is exactly the base
messages plus the single retry-context pair built from attempt `k` (no
accumulation); in scenario 3's stage loop, by contrast, attempt `i + 1`'s
messages are the stage base plus the retry-context pairs of all `i`
preceding attempts. -/
theorem C10_theorem :
    (∀ cfg oracle rd runs, runScenario1 cfg oracle rd = Except.ok runs →
      ∀ r ∈ runs,
        (∀ a0, r.attempts.get? 0 = some a0 →
          a0.prompt = promptText scenario1BaseMessages) ∧
        (∀ i prev a, r.attempts.get? i = some prev →
          r.attempts.get? (i + 1) = some a →
          a.prompt = promptText (scenario1BaseMessages ++
            retryContext prev.rawResponse prev.validationErrors))) ∧
    (∀ (cfg : TestConfig) (o : Scenario3RunOracle) atts st,
      seqStage Parsed.part1 o.s1 (cfg.maxRetries + 1) 1 scenario3Step1Messages
        = (atts, st) →
      ∀ i a, atts.get? i = some a →
        a.prompt = promptText (scenario3Step1Messages ++
          ((atts.take i).map
            (fun p => retryContext p.rawResponse p.validationErrors)).flatten)) := by
  constructor
  · intro cfg oracle rd runs h r hr
    obtain ⟨rn, hgo⟩ := runScenario1_mem cfg oracle rd runs h r hr
    obtain ⟨ih0, ihp⟩ := scenario1Go_prompts (oracle rn) (cfg.maxRetries + 1) 1 []
      _ _ _ (le_refl 1) hgo
    exact ⟨fun a0 h0 => ih0 a0 h0, ihp⟩
  · intro cfg o atts st hseq i a ha
    exact seqStage_prompts Parsed.part1 o.s1 (cfg.maxRetries + 1) 1
      scenario3Step1Messages atts st hseq i a ha

/-- Witness for C10: in a concrete scenario-1 run whose first attempt fails,
attempt 2's logged prompt is the base messages plus exactly one retry pair
built from attempt 1. -/
theorem C10_witness :
    attC10snd.prompt = promptText (scenario1BaseMessages ++
      retryContext attC10fst.rawResponse attC10fst.validationErrors) :=
  (C10_theorem.1 cfgOneRun oracleC10 (fun _ => 0) runsC10 rfl runC10
    (List.get?_mem (show runsC10.get? 0 = some runC10 from rfl))).2
    0 attC10fst attC10snd rfl rfl

end Benchmark
